import Mathlib

/-!
Shallow embedding of the Salesforce connector `ObjectsHandler`
(src/santoku/salesforce/objects_handler.py) and proofs about it.

Conventions of the embedding:
* Python strings are Lean `String`s; `str.split("/")` is `pySplitSlash`,
  `sub in s` is `strContainsSub`, `s.index(sub)` is `chListFind` on
  character lists (returning the character index, as in Python).
* Python exceptions are modelled by the `Except PyErr` result component;
  since Python mutations performed before a raise persist, every stateful
  operation returns the updated state next to the `Except` value.
* HTTP response bodies are modelled as already-parsed JSON values (`JVal`);
  `json.loads` on a body returned verbatim by `do_request` is the identity
  in this model, and a key that is structurally missing from a JSON object
  models a structurally missing field.
* The two `re.search` calls of `_obtain_salesforce_object_name_from_path`
  are modelled by `reSearchFromTail` and `reSearchFromWhere`, which
  implement the CPython semantics of the concrete patterns
  `FROM+(.*)` and `FROM+(.*)+WHERE` (where `+` is a quantifier, so the
  patterns mean: F, R, O, one or more M, then the groups).
-/

/-- Characters `pat` stand at the head of `l`. -/
def chListIsStartOf : List Char → List Char → Bool
  | [], _ => true
  | _ :: _, [] => false
  | p :: ps, c :: cs => p = c && chListIsStartOf ps cs

/-- Leftmost character index at which `pat` occurs inside `l`; `none` when it
does not occur.  This is Python `s.find(pat)` (with `none` for `-1`), hence
also the model of `pat in s` and of `s.index(pat)`. -/
def chListFind : List Char → List Char → Option Nat
  | [], pat => if pat = [] then some 0 else none
  | c :: cs, pat =>
    if chListIsStartOf pat (c :: cs) then some 0
    else (chListFind cs pat).map (fun i => i + 1)

/-- Python `sub in s` for strings. -/
def strContainsSub (s pat : String) : Bool :=
  (chListFind s.toList pat.toList).isSome

/-- Python `s.split("/")` on character lists: splitting on every slash,
keeping empty pieces, with `[""]` for the empty string. -/
def chSplitSlash : List Char → List (List Char)
  | [] => [[]]
  | c :: cs =>
    let r := chSplitSlash cs
    if c = '/' then [] :: r
    else
      match r with
      | [] => [[c]]
      | h :: t => (c :: h) :: t

/-- Python `path.split("/")` as a list of strings. -/
def pySplitSlash (s : String) : List String :=
  (chSplitSlash s.toList).map String.mk

/-- Model of CPython `re.search("FROM+(.*)", path)`, the pattern built by
`"{}(.*)".format("FROM+")` at objects_handler.py line 167.  In the regex the
`+` of `FROM+` quantifies the `M`, so the engine finds the leftmost
occurrence of `FROM`, greedily extends the run of `M`s, and the group
`(.*)` captures the rest of that line.  Returns the captured group. -/
def reSearchFromTail (path : String) : Option String :=
  match chListFind path.toList ['F', 'R', 'O', 'M'] with
  | none => none
  | some i =>
    let tail := ((path.toList.drop (i + 3)).dropWhile (fun c => c = 'M')).takeWhile
      (fun c => c ≠ '\n')
    some (String.mk tail)

/-- The pattern `FROM+(.*)+WHERE` matches at the head of `l`: `l` starts with
`FROM`, and after the maximal run of `M`s the literal `WHERE` occurs later on
the same line. -/
def fromWhereAt (l : List Char) : Bool :=
  chListIsStartOf ['F', 'R', 'O', 'M'] l &&
    (chListFind (((l.drop 3).dropWhile (fun c => c = 'M')).takeWhile (fun c => c ≠ '\n'))
        ['W', 'H', 'E', 'R', 'E']).isSome

/-- The pattern `FROM+(.*)+WHERE` matches somewhere inside `l`. -/
def fromWhereAnywhere : List Char → Bool
  | [] => false
  | c :: rest => fromWhereAt (c :: rest) || fromWhereAnywhere rest

/-- Model of CPython `re.search("FROM+(.*)+WHERE", path)`, the pattern built
by `"{}(.*){}".format("FROM+", "+WHERE")` at objects_handler.py line 161.
In the regex both `+` signs are quantifiers: the pattern is F, R, O, one or
more M, then `(.*)` repeated one or more times, then the literal `WHERE`.
It matches iff some occurrence of `FROM`, after its maximal run of `M`s, is
followed by `WHERE` on the same line; when it matches, the final iteration
of the repeated group `(.*)+` matches the empty string, so `group(1)` is
always the empty string (behaviour validated against CPython). -/
def reSearchFromWhere (path : String) : Option String :=
  if fromWhereAnywhere path.toList then some "" else none

/-- Python exceptions that the connector can raise, plus the model-only
`outOfFuel` marker used to cut off the recursion budget of `doRequest`
(`outOfFuel` is proved unreachable for budgets of at least 2). -/
inductive PyErr where
  | assertionError : String → PyErr
  | requestError : String → PyErr
  | keyError : String → PyErr
  | typeError : PyErr
  | valueError : String → PyErr
  | indexError : PyErr
  | outOfFuel : PyErr
  deriving DecidableEq

/-- Embedding of `_obtain_salesforce_object_name_from_path`
(objects_handler.py lines 153-179).  The four branches mirror the source:
a path containing `describe`, a SOQL query string (with or without `WHERE`),
the literal `sobjects`, and the fallback that indexes the slash-split list
at the character position of `sobjects` plus one.  `.error` marks the points
where the Python code raises (IndexError from an out-of-range list index,
ValueError from `str.index` when `sobjects` does not occur). -/
def obtainSalesforceObjectNameFromPath (path : String) : Except PyErr String :=
  if strContainsSub path "describe" then
    match (pySplitSlash path).get? 1 with
    | some seg => .ok seg
    | none => .error .indexError
  else if strContainsSub path "query?q=SELECT" then
    if strContainsSub path "WHERE" then
      match reSearchFromWhere path with
      | some m => .ok m
      | none => .ok ""
    else
      match reSearchFromTail path with
      | some m => .ok m
      | none => .ok ""
  else if path = "sobjects" then
    .ok ""
  else
    match chListFind path.toList "sobjects".toList with
    | none => .error (.valueError "substring not found")
    | some i =>
      match (pySplitSlash path).get? (i + 1) with
      | some seg => .ok seg
      | none => .error .indexError

/-- Embedding of `_validate_payload_content` (objects_handler.py lines
181-186): iterate over the payload keys in order and raise ValueError at the
first key that is not among the object fields. -/
def validatePayloadContent (payload : List (String × String))
    (object_fields : List String) : Except PyErr Unit :=
  match payload with
  | [] => .ok ()
  | (field, _) :: rest =>
    if object_fields.contains field then validatePayloadContent rest object_fields
    else .error (.valueError (field ++ " isn\x27t a valid field"))

deriving instance DecidableEq for Except

example : obtainSalesforceObjectNameFromPath "sobjects/Account/describe" = .ok "Account" := by
  decide
example : obtainSalesforceObjectNameFromPath "sobjects/Contact" = .ok "Contact" := by decide
example : obtainSalesforceObjectNameFromPath "sobjects" = .ok "" := by decide
example : obtainSalesforceObjectNameFromPath "query?q=SELECT+Name+FROM+Account" =
    .ok "+Account" := by decide
example :
    obtainSalesforceObjectNameFromPath "query?q=SELECT+Name+FROM+Account+WHERE+Id=\x271\x27" =
    .ok "" := by decide
example : obtainSalesforceObjectNameFromPath "foo" =
    .error (.valueError "substring not found") := by decide
example : obtainSalesforceObjectNameFromPath "describe" = .error .indexError := by decide

/-- Parsed JSON values, the model of HTTP response bodies. -/
inductive JVal where
  | jstr : String → JVal
  | jarr : List JVal → JVal
  | jobj : List (String × JVal) → JVal

/-- One network call: HTTP method, absolute URL, optional JSON payload. -/
structure HttpRequest where
  method : String
  url : String
  payload : Option (List (String × String))

/-- Transport answer: `ok` is the `raise_for_status` outcome (true means an
HTTP success status), `body` the parsed response body. -/
structure HttpResponse where
  ok : Bool
  body : JVal

/-- The HTTP transport collaborator: a response for every request. -/
abbrev Oracle := HttpRequest → HttpResponse

/-- Python `d[k]` lookup on a JSON object, `none` when the key is missing. -/
def dictGet : List (String × JVal) → String → Option JVal
  | [], _ => none
  | (k, v) :: rest, key => if k = key then some v else dictGet rest key

/-- String content of a JSON value (the auth contract delivers strings; a
non-string value is collapsed to the empty string, a corner no claim
depends on). -/
def JVal.asString : JVal → String
  | .jstr s => s
  | _ => ""

/-- First-match lookup in an insertion-ordered association list, the model
of a Python dict owned by the connector. -/
def assocGet : List (String × List String) → String → Option (List String)
  | [], _ => none
  | (k, v) :: rest, key => if k = key then some v else assocGet rest key

/-- The list comprehension `[x["name"] for x in xs]`: collects the `name`
entry of each element, raising KeyError or TypeError exactly where Python
would. -/
def collectNames : List JVal → Except PyErr (List String)
  | [] => .ok []
  | .jobj kvs :: rest =>
    match dictGet kvs "name" with
    | none => .error (.keyError "name")
    | some v =>
      match collectNames rest with
      | .error e => .error e
      | .ok ns => .ok (v.asString :: ns)
  | _ :: _ => .error .typeError

/-- Parsing step of `_get_salesforce_object_names` (lines 133-135):
`[sobject["name"] for sobject in json.loads(response)["sobjects"]]`. -/
def namesFromSObjectsBody : JVal → Except PyErr (List String)
  | .jobj kvs =>
    match dictGet kvs "sobjects" with
    | none => .error (.keyError "sobjects")
    | some (.jarr xs) => collectNames xs
    | some _ => .error .typeError
  | _ => .error .typeError

/-- Parsing step of `_get_salesforce_object_fields` (lines 147-149):
`[fields["name"] for fields in json.loads(response)["fields"]]`. -/
def fieldsFromDescribeBody : JVal → Except PyErr (List String)
  | .jobj kvs =>
    match dictGet kvs "fields" with
    | none => .error (.keyError "fields")
    | some (.jarr xs) => collectNames xs
    | some _ => .error .typeError
  | _ => .error .typeError

/-- Constructor arguments of `ObjectsHandler.__init__` that never change:
credentials, auth URL, grant type, and the API version (held in the source
as a float and interpolated as `v{:.1f}`; modelled as the already formatted
string, for example "47.0"). -/
structure OHConfig where
  auth_url : String
  username : String
  password : String
  client_id : String
  client_secret : String
  api_version : String
  grant_type : String

/-- Mutable state of one `ObjectsHandler` instance, as set up by `__init__`
(objects_handler.py lines 82-95), together with three ghost fields that make
the externally observable behaviour provable: `trace` records every network
call in order, `auth_calls` counts invocations of `_authenticate`, and
`guard_log` records, in order, every value assigned to
`_validate_salesforce_object` after construction (assignment sites: line
128, line 142, line 262). -/
structure OHState where
  instance_scheme_and_authority : String := ""
  access_token : String := ""
  authorization_header : String := "OAuth"
  salesforce_object_names_cache : List String := []
  salesforce_object_fields_cache : List (String × List String) := []
  validate_salesforce_object : Bool := true
  is_authenticated : Bool := false
  trace : List HttpRequest := []
  auth_calls : Nat := 0
  guard_log : List Bool := []

/-- A freshly constructed connector. -/
def initState : OHState := {}

/-- The form body posted to the auth endpoint (lines 99-108). -/
def authRequest (cfg : OHConfig) : HttpRequest :=
  { method := "POST", url := cfg.auth_url,
    payload := some [("grant_type", cfg.grant_type), ("username", cfg.username),
      ("password", cfg.password), ("client_id", cfg.client_id),
      ("client_secret", cfg.client_secret)] }

/-- Embedding of `_authenticate` (objects_handler.py lines 97-123).  On an
HTTP error the exception is re-raised with `_is_authenticated` still false;
on HTTP success the flag is set to true before the body is parsed, then
`instance_url` and `access_token` are read (KeyError where missing) and the
Authorization header is updated. -/
def authenticate (cfg : OHConfig) (net : Oracle) (s : OHState) :
    OHState × Except PyErr Unit :=
  let req := authRequest cfg
  let resp := net req
  let s := { s with trace := s.trace ++ [req], auth_calls := s.auth_calls + 1 }
  if resp.ok then
    let s := { s with is_authenticated := true }
    match resp.body with
    | .jobj kvs =>
      match dictGet kvs "instance_url" with
      | none => (s, .error (.keyError "instance_url"))
      | some vu =>
        let s := { s with instance_scheme_and_authority := vu.asString }
        match dictGet kvs "access_token" with
        | none => (s, .error (.keyError "access_token"))
        | some vt =>
          ({ s with access_token := vt.asString
                    authorization_header := "OAuth " ++ vt.asString }, .ok ())
    | _ => (s, .error .typeError)
  else (s, .error (.requestError cfg.auth_url))

/-- The authentication guard of `do_request` (lines 221-222), which is the
spec function `ensureAuthenticated`: authenticate only when not yet
authenticated. -/
def ensureAuthenticated (cfg : OHConfig) (net : Oracle) (s : OHState) :
    OHState × Except PyErr Unit :=
  if s.is_authenticated then (s, .ok ()) else authenticate cfg net s

/-- URL construction of line 231: `self._url_to_format.format(...)` with
`"{}/services/data/v{:.1f}/{}"`. -/
def mkUrl (instanceBase apiVersion path : String) : String :=
  instanceBase ++ "/services/data/v" ++ apiVersion ++ "/" ++ path

/-- Final part of `do_request` (lines 235-265 without the payload
validation): issue the HTTP call, record it, re-raise on a non-success
status, and on success set `_validate_salesforce_object = True` and return
the body verbatim. -/
def sendAndFinish (net : Oracle) (method url : String)
    (body : Option (List (String × String))) (s : OHState) :
    OHState × Except PyErr JVal :=
  let req : HttpRequest := { method := method, url := url, payload := body }
  let resp := net req
  let s := { s with trace := s.trace ++ [req] }
  if resp.ok then
    ({ s with validate_salesforce_object := true, guard_log := s.guard_log ++ [true] },
      .ok resp.body)
  else (s, .error (.requestError url))

/-- Embedding of `do_request` (objects_handler.py lines 188-265).  `fuel`
bounds the recursion through the schema fetches (the source has no such
bound; `outOfFuel` is proved unreachable for `fuel >= 2`).  Steps, in source
order: the supported-method assert (line 219), lazy authentication (lines
221-222), the object-name check when the validation guard is on (lines
224-229), the URL (line 231), the POST/PATCH payload assert and payload
validation (lines 236-245), then the HTTP call (lines 247-265).  The
let-bound `objectNames`, `objectFields` and `send` are the bodies of
`_get_salesforce_object_names`, `_get_salesforce_object_fields` and the
sending tail, inlined so that the recursion is structural on `fuel`; the
standalone functions `getObjectNames`, `getObjectFields` and
`doRequestSend` below are definitionally equal to them. -/
def doRequest (cfg : OHConfig) (net : Oracle) :
    Nat → String → String → Option (List (String × String)) → OHState →
    OHState × Except PyErr JVal
  | 0, _, _, _, s => (s, .error .outOfFuel)
  | f + 1, method, path, payload, s =>
    let objectNames : OHState → OHState × Except PyErr (List String) := fun s =>
      if s.salesforce_object_names_cache.isEmpty then
        let s := { s with validate_salesforce_object := false
                          guard_log := s.guard_log ++ [false] }
        match doRequest cfg net f "GET" "sobjects" none s with
        | (s, .error e) => (s, .error e)
        | (s, .ok body) =>
          match namesFromSObjectsBody body with
          | .error e => (s, .error e)
          | .ok ns => ({ s with salesforce_object_names_cache := ns }, .ok ns)
      else (s, .ok s.salesforce_object_names_cache)
    let objectFields : String → OHState → OHState × Except PyErr (List String) :=
      fun name s =>
      match assocGet s.salesforce_object_fields_cache name with
      | some flds => (s, .ok flds)
      | none =>
        let s := { s with validate_salesforce_object := false
                          guard_log := s.guard_log ++ [false] }
        match doRequest cfg net f "GET" ("sobjects/" ++ name ++ "/describe") none s with
        | (s, .error e) => (s, .error e)
        | (s, .ok body) =>
          match fieldsFromDescribeBody body with
          | .error e => (s, .error e)
          | .ok flds =>
            ({ s with salesforce_object_fields_cache :=
                s.salesforce_object_fields_cache ++ [(name, flds)] }, .ok flds)
    let send : String → OHState → OHState × Except PyErr JVal := fun name s =>
      let url := mkUrl s.instance_scheme_and_authority cfg.api_version path
      if method == "POST" || method == "PATCH" then
        match payload with
        | none =>
          (s, .error (.assertionError "Payload must be defined for a POST, PATCH request."))
        | some pl =>
          if pl.isEmpty then
            (s, .error (.assertionError "Payload must be defined for a POST, PATCH request."))
          else if s.validate_salesforce_object then
            match objectFields name s with
            | (s, .error e) => (s, .error e)
            | (s, .ok flds) =>
              match validatePayloadContent pl flds with
              | .error e => (s, .error e)
              | .ok _ => sendAndFinish net method url (some pl) s
          else sendAndFinish net method url (some pl) s
      else sendAndFinish net method url none s
    if !(["POST", "GET", "PATCH", "DELETE"].contains method) then
      (s, .error (.assertionError "Method isn\x27t supported."))
    else
      match ensureAuthenticated cfg net s with
      | (s, .error e) => (s, .error e)
      | (s, .ok _) =>
        if s.validate_salesforce_object then
          match obtainSalesforceObjectNameFromPath path with
          | .error e => (s, .error e)
          | .ok name =>
            if name ≠ "" then
              match objectNames s with
              | (s, .error e) => (s, .error e)
              | (s, .ok ns) =>
                if ns.contains name then send name s
                else (s, .error (.assertionError (name ++ " isn\x27t a valid object")))
            else send name s
        else send "" s

/-- Embedding of `_get_salesforce_object_names` (lines 125-137): when the
cache list is empty (Python `if not cache`), disable the validation guard,
dispatch `GET sobjects`, parse the names and fill the cache. -/
def getObjectNames (cfg : OHConfig) (net : Oracle) (fuel : Nat) (s : OHState) :
    OHState × Except PyErr (List String) :=
  if s.salesforce_object_names_cache.isEmpty then
    let s := { s with validate_salesforce_object := false
                      guard_log := s.guard_log ++ [false] }
    match doRequest cfg net fuel "GET" "sobjects" none s with
    | (s, .error e) => (s, .error e)
    | (s, .ok body) =>
      match namesFromSObjectsBody body with
      | .error e => (s, .error e)
      | .ok ns => ({ s with salesforce_object_names_cache := ns }, .ok ns)
  else (s, .ok s.salesforce_object_names_cache)

/-- Embedding of `_get_salesforce_object_fields` (lines 139-151): on a cache
miss for `name`, disable the validation guard, dispatch
`GET sobjects/<name>/describe`, parse the field names and add the entry. -/
def getObjectFields (cfg : OHConfig) (net : Oracle) (fuel : Nat) (name : String)
    (s : OHState) : OHState × Except PyErr (List String) :=
  match assocGet s.salesforce_object_fields_cache name with
  | some flds => (s, .ok flds)
  | none =>
    let s := { s with validate_salesforce_object := false
                      guard_log := s.guard_log ++ [false] }
    match doRequest cfg net fuel "GET" ("sobjects/" ++ name ++ "/describe") none s with
    | (s, .error e) => (s, .error e)
    | (s, .ok body) =>
      match fieldsFromDescribeBody body with
      | .error e => (s, .error e)
      | .ok flds =>
        ({ s with salesforce_object_fields_cache :=
            s.salesforce_object_fields_cache ++ [(name, flds)] }, .ok flds)

/-- Continuation of `do_request` from line 231: build the URL, and for POST
and PATCH require a non-empty payload (line 237) and, when the validation
guard is on, fetch the object fields and validate the payload (lines
239-245) before sending. -/
def doRequestSend (cfg : OHConfig) (net : Oracle) (f : Nat) (method path : String)
    (payload : Option (List (String × String))) (name : String) (s : OHState) :
    OHState × Except PyErr JVal :=
  let url := mkUrl s.instance_scheme_and_authority cfg.api_version path
  if method == "POST" || method == "PATCH" then
    match payload with
    | none =>
      (s, .error (.assertionError "Payload must be defined for a POST, PATCH request."))
    | some pl =>
      if pl.isEmpty then
        (s, .error (.assertionError "Payload must be defined for a POST, PATCH request."))
      else if s.validate_salesforce_object then
        match getObjectFields cfg net f name s with
        | (s, .error e) => (s, .error e)
        | (s, .ok flds) =>
          match validatePayloadContent pl flds with
          | .error e => (s, .error e)
          | .ok _ => sendAndFinish net method url (some pl) s
      else sendAndFinish net method url (some pl) s
  else sendAndFinish net method url none s

/-- Unfolding of `doRequest` at a successor budget, phrased with the
standalone helper functions; holds definitionally. -/
theorem doRequest_succ (cfg : OHConfig) (net : Oracle) (f : Nat) (method path : String)
    (payload : Option (List (String × String))) (s : OHState) :
    doRequest cfg net (f + 1) method path payload s =
      (if !(["POST", "GET", "PATCH", "DELETE"].contains method) then
        (s, .error (.assertionError "Method isn\x27t supported."))
      else
        match ensureAuthenticated cfg net s with
        | (s, .error e) => (s, .error e)
        | (s, .ok _) =>
          if s.validate_salesforce_object then
            match obtainSalesforceObjectNameFromPath path with
            | .error e => (s, .error e)
            | .ok name =>
              if name ≠ "" then
                match getObjectNames cfg net f s with
                | (s, .error e) => (s, .error e)
                | (s, .ok ns) =>
                  if ns.contains name then doRequestSend cfg net f method path payload name s
                  else (s, .error (.assertionError (name ++ " isn\x27t a valid object")))
              else doRequestSend cfg net f method path payload name s
          else doRequestSend cfg net f method path payload "" s) := rfl

/-- Sending tail of `do_request` with the payload-validation step removed:
URL, POST/PATCH payload assert, HTTP call.  `doRequestSend` on a guard-off
state is proved equal to this function. -/
def sendNoValidate (cfg : OHConfig) (net : Oracle) (method path : String)
    (payload : Option (List (String × String))) (s : OHState) :
    OHState × Except PyErr JVal :=
  let url := mkUrl s.instance_scheme_and_authority cfg.api_version path
  if method == "POST" || method == "PATCH" then
    match payload with
    | none => (s, .error (.assertionError "Payload must be defined for a POST, PATCH request."))
    | some pl =>
      if pl.isEmpty then
        (s, .error (.assertionError "Payload must be defined for a POST, PATCH request."))
      else sendAndFinish net method url (some pl) s
  else sendAndFinish net method url none s

/-- Straight-line behaviour of `do_request` when the validation guard is
off: the supported-method assert, lazy authentication, the URL and the
POST/PATCH payload assert, then the HTTP call — no object-name check, no
payload validation, no schema fetch.  `doRequest` on a guard-off state is
proved equal to this function. -/
def doRequestNoValidate (cfg : OHConfig) (net : Oracle) (method path : String)
    (payload : Option (List (String × String))) (s : OHState) :
    OHState × Except PyErr JVal :=
  if !(["POST", "GET", "PATCH", "DELETE"].contains method) then
    (s, .error (.assertionError "Method isn\x27t supported."))
  else
    match ensureAuthenticated cfg net s with
    | (s, .error e) => (s, .error e)
    | (s, .ok _) => sendNoValidate cfg net method path payload s

/-- Concrete connector configuration used by witnesses and counterexamples. -/
def testCfg : OHConfig :=
  { auth_url := "https://auth.example", username := "u", password := "p",
    client_id := "cid", client_secret := "cs", api_version := "47.0",
    grant_type := "password" }

/-- Instance base URL delivered by the test auth endpoint. -/
def testInstanceUrl : String := "https://sf.example"

/-- Auth response body with both required keys. -/
def testAuthBody : JVal :=
  .jobj [("instance_url", .jstr testInstanceUrl), ("access_token", .jstr "tok")]

/-- Response body of `GET sobjects` listing Account and Contact. -/
def testSObjectsBody : JVal :=
  .jobj [("sobjects", .jarr [.jobj [("name", .jstr "Account")],
    .jobj [("name", .jstr "Contact")]])]

/-- Response body of `GET sobjects/Contact/describe`. -/
def testDescribeBody : JVal :=
  .jobj [("fields", .jarr [.jobj [("name", .jstr "FirstName")],
    .jobj [("name", .jstr "LastName")], .jobj [("name", .jstr "Email")]])]

/-- Response body of the final `POST sobjects/Contact`. -/
def testPostBody : JVal := .jobj [("id", .jstr "003xx"), ("success", .jstr "true")]

/-- Test transport: answers the four requests of the end-to-end scenario by
URL, and fails anything else. -/
def testNet : Oracle := fun req =>
  if req.url = testCfg.auth_url then { ok := true, body := testAuthBody }
  else if req.url = mkUrl testInstanceUrl "47.0" "sobjects" then
    { ok := true, body := testSObjectsBody }
  else if req.url = mkUrl testInstanceUrl "47.0" "sobjects/Contact/describe" then
    { ok := true, body := testDescribeBody }
  else if req.url = mkUrl testInstanceUrl "47.0" "sobjects/Contact" then
    { ok := true, body := testPostBody }
  else { ok := false, body := .jobj [] }

/-- The POST payload of the end-to-end scenario. -/
def testPayload : List (String × String) := [("FirstName", "A"), ("LastName", "B")]

/-- The end-to-end run on the concrete fixtures, dispatched with recursion
budget 2. -/
def testRun : OHState × Except PyErr JVal :=
  doRequest testCfg testNet 2 "POST" "sobjects/Contact" (some testPayload) initState

example : testRun.1.trace.map HttpRequest.url =
    ["https://auth.example",
     "https://sf.example/services/data/v47.0/sobjects",
     "https://sf.example/services/data/v47.0/sobjects/Contact/describe",
     "https://sf.example/services/data/v47.0/sobjects/Contact"] := by rfl
example : testRun.1.guard_log = [false, true, false, true, true] := by rfl
example : testRun.1.auth_calls = 1 := by rfl

/-- Effects of `_authenticate` on the fields that other operations read: the
validation guard, the guard log, the two schema caches are untouched; the
trace gains the auth exchange and the auth counter steps; the flag ends true
exactly when the transport reported success. -/
theorem authenticate_effect (cfg : OHConfig) (net : Oracle) (s : OHState) :
    ((authenticate cfg net s).1).validate_salesforce_object = s.validate_salesforce_object ∧
    ((authenticate cfg net s).1).guard_log = s.guard_log ∧
    ((authenticate cfg net s).1).salesforce_object_names_cache =
      s.salesforce_object_names_cache ∧
    ((authenticate cfg net s).1).salesforce_object_fields_cache =
      s.salesforce_object_fields_cache ∧
    ((authenticate cfg net s).1).trace = s.trace ++ [authRequest cfg] ∧
    ((authenticate cfg net s).1).auth_calls = s.auth_calls + 1 ∧
    ((authenticate cfg net s).1).is_authenticated =
      ((net (authRequest cfg)).ok || s.is_authenticated) := by
  unfold authenticate
  dsimp only
  split
  · split
    · split
      · simp_all
      · split
        · simp_all
        · simp_all
    · simp_all
  · simp_all

/-- A successful `_authenticate` leaves the connector marked authenticated. -/
theorem authenticate_ok_flag (cfg : OHConfig) (net : Oracle) (s : OHState) :
    (authenticate cfg net s).2 = .ok () →
    ((authenticate cfg net s).1).is_authenticated = true := by
  unfold authenticate
  dsimp only
  split
  · split
    · split
      · simp_all
      · split <;> simp_all
    · simp_all
  · simp_all

/-- `_authenticate` never reports fuel exhaustion (it makes no recursive
call). -/
theorem authenticate_noFuel (cfg : OHConfig) (net : Oracle) (s : OHState) :
    (authenticate cfg net s).2 ≠ .error .outOfFuel := by
  unfold authenticate
  dsimp only
  split
  · split
    · split
      · simp_all
      · split <;> simp_all
    · simp_all
  · simp_all

/-- The authentication guard leaves the validation guard, the guard log and
both schema caches untouched. -/
theorem ensureAuthenticated_effect (cfg : OHConfig) (net : Oracle) (s : OHState) :
    ((ensureAuthenticated cfg net s).1).validate_salesforce_object =
      s.validate_salesforce_object ∧
    ((ensureAuthenticated cfg net s).1).guard_log = s.guard_log ∧
    ((ensureAuthenticated cfg net s).1).salesforce_object_names_cache =
      s.salesforce_object_names_cache ∧
    ((ensureAuthenticated cfg net s).1).salesforce_object_fields_cache =
      s.salesforce_object_fields_cache := by
  unfold ensureAuthenticated
  split
  · exact ⟨rfl, rfl, rfl, rfl⟩
  · have h := authenticate_effect cfg net s
    exact ⟨h.1, h.2.1, h.2.2.1, h.2.2.2.1⟩

/-- A successful authentication guard leaves the connector authenticated. -/
theorem ensureAuthenticated_ok_flag (cfg : OHConfig) (net : Oracle) (s : OHState) :
    (ensureAuthenticated cfg net s).2 = .ok () →
    ((ensureAuthenticated cfg net s).1).is_authenticated = true := by
  unfold ensureAuthenticated
  split
  · intro _; simpa using by assumption
  · exact authenticate_ok_flag cfg net s

/-- The authentication guard never reports fuel exhaustion. -/
theorem ensureAuthenticated_noFuel (cfg : OHConfig) (net : Oracle) (s : OHState) :
    (ensureAuthenticated cfg net s).2 ≠ .error .outOfFuel := by
  unfold ensureAuthenticated
  split
  · simp
  · exact authenticate_noFuel cfg net s

/-- Closed form of the sending step: one network call appended to the trace;
on success the guard is re-enabled and the body returned, otherwise the
HTTP error is re-raised. -/
theorem sendAndFinish_spec (net : Oracle) (method url : String)
    (body : Option (List (String × String))) (s : OHState) :
    sendAndFinish net method url body s =
      (if (net ⟨method, url, body⟩).ok then
        ({ s with trace := s.trace ++ [⟨method, url, body⟩]
                  validate_salesforce_object := true
                  guard_log := s.guard_log ++ [true] }, .ok (net ⟨method, url, body⟩).body)
      else
        ({ s with trace := s.trace ++ [⟨method, url, body⟩] },
          .error (.requestError url))) := rfl

/-- The sending step never reports fuel exhaustion. -/
theorem sendAndFinish_noFuel (net : Oracle) (method url : String)
    (body : Option (List (String × String))) (s : OHState) :
    (sendAndFinish net method url body s).2 ≠ .error .outOfFuel := by
  rw [sendAndFinish_spec]
  split <;> simp

/-- With the validation guard off, the sending tail of `do_request` skips
the field fetch and the payload validation. -/
theorem doRequestSend_guard_off (cfg : OHConfig) (net : Oracle) (f : Nat)
    (method path : String) (payload : Option (List (String × String)))
    (name : String) (s : OHState) (h : s.validate_salesforce_object = false) :
    doRequestSend cfg net f method path payload name s =
      sendNoValidate cfg net method path payload s := by
  unfold doRequestSend sendNoValidate
  simp only [h]
  rfl

/-- With the validation guard off, `do_request` is the straight-line
function `doRequestNoValidate`: no object-name check, no payload
validation, no schema fetch, hence no recursive dispatch. -/
theorem doRequest_guard_off (cfg : OHConfig) (net : Oracle) (f : Nat)
    (method path : String) (payload : Option (List (String × String)))
    (s : OHState) (h : s.validate_salesforce_object = false) :
    doRequest cfg net (f + 1) method path payload s =
      doRequestNoValidate cfg net method path payload s := by
  rw [doRequest_succ]
  unfold doRequestNoValidate
  split
  · rfl
  · rcases hEA : ensureAuthenticated cfg net s with ⟨s1, r1⟩
    have hv : s1.validate_salesforce_object = false := by
      have hp := (ensureAuthenticated_effect cfg net s).1
      rw [hEA] at hp
      simpa [h] using hp
    cases r1
    · rfl
    · simp only [hv]
      exact doRequestSend_guard_off cfg net f method path payload "" s1 hv

/-- The object-name fetch behaves the same under any positive recursion
budget: its nested dispatch runs with the guard off and never recurses. -/
theorem getObjectNames_fuel (cfg : OHConfig) (net : Oracle) (f : Nat) (s : OHState) :
    getObjectNames cfg net (f + 1) s = getObjectNames cfg net 1 s := by
  unfold getObjectNames
  dsimp only
  split
  · rw [doRequest_guard_off cfg net f "GET" "sobjects" none _ rfl]
    rw [show (1 : Nat) = 0 + 1 from rfl,
      doRequest_guard_off cfg net 0 "GET" "sobjects" none _ rfl]
  · rfl

/-- The object-fields fetch behaves the same under any positive recursion
budget. -/
theorem getObjectFields_fuel (cfg : OHConfig) (net : Oracle) (f : Nat) (name : String)
    (s : OHState) :
    getObjectFields cfg net (f + 1) name s = getObjectFields cfg net 1 name s := by
  unfold getObjectFields
  dsimp only
  split
  · rfl
  · rw [doRequest_guard_off cfg net f "GET" ("sobjects/" ++ name ++ "/describe") none _ rfl]
    rw [show (1 : Nat) = 0 + 1 from rfl,
      doRequest_guard_off cfg net 0 "GET" ("sobjects/" ++ name ++ "/describe") none _ rfl]

/-- The sending tail of `do_request` behaves the same under any positive
recursion budget. -/
theorem doRequestSend_fuel (cfg : OHConfig) (net : Oracle) (f : Nat)
    (method path : String) (payload : Option (List (String × String)))
    (name : String) (s : OHState) :
    doRequestSend cfg net (f + 1) method path payload name s =
      doRequestSend cfg net 1 method path payload name s := by
  unfold doRequestSend
  simp only [getObjectFields_fuel]

/-- Recursion budget 2 already determines `do_request` completely: any
larger budget gives the identical result (the recursion depth through the
schema fetches is bounded by 2). -/
theorem doRequest_fuel (cfg : OHConfig) (net : Oracle) (f : Nat)
    (method path : String) (payload : Option (List (String × String))) (s : OHState) :
    doRequest cfg net (f + 2) method path payload s =
      doRequest cfg net 2 method path payload s := by
  simp only [show f + 2 = (f + 1) + 1 from rfl, show (2 : Nat) = 1 + 1 from rfl,
    doRequest_succ, getObjectNames_fuel, doRequestSend_fuel]

/-- The path interpreter raises only IndexError or ValueError, never the
fuel marker. -/
theorem obtain_noFuel (path : String) :
    obtainSalesforceObjectNameFromPath path ≠ .error .outOfFuel := by
  unfold obtainSalesforceObjectNameFromPath
  repeat' split
  all_goals simp

/-- The comprehension over response records raises only KeyError or
TypeError. -/
theorem collectNames_noFuel (xs : List JVal) :
    collectNames xs ≠ .error .outOfFuel := by
  induction xs with
  | nil => simp [collectNames]
  | cons x rest ih =>
    cases x with
    | jstr v => simp [collectNames]
    | jarr ys => simp [collectNames]
    | jobj kvs =>
      unfold collectNames
      rcases hd : dictGet kvs "name" with _ | v
      · simp
      · dsimp only
        rcases hr : collectNames rest with e | ns
        · rw [hr] at ih
          simpa using ih
        · simp

/-- Parsing the `sobjects` listing raises only KeyError or TypeError. -/
theorem namesFrom_noFuel (b : JVal) :
    namesFromSObjectsBody b ≠ .error .outOfFuel := by
  unfold namesFromSObjectsBody
  repeat' split
  all_goals first
  | exact collectNames_noFuel _
  | simp

/-- Parsing a describe response raises only KeyError or TypeError. -/
theorem fieldsFrom_noFuel (b : JVal) :
    fieldsFromDescribeBody b ≠ .error .outOfFuel := by
  unfold fieldsFromDescribeBody
  repeat' split
  all_goals first
  | exact collectNames_noFuel _
  | simp

/-- Payload validation raises only ValueError. -/
theorem validatePayloadContent_noFuel (payload : List (String × String))
    (object_fields : List String) :
    validatePayloadContent payload object_fields ≠ .error .outOfFuel := by
  induction payload with
  | nil => simp [validatePayloadContent]
  | cons kv rest ih =>
    unfold validatePayloadContent
    rcases kv with ⟨field, v⟩
    dsimp only
    split
    · exact ih
    · simp

/-- The guard-off sending tail never reports fuel exhaustion. -/
theorem sendNoValidate_noFuel (cfg : OHConfig) (net : Oracle) (method path : String)
    (payload : Option (List (String × String))) (s : OHState) :
    (sendNoValidate cfg net method path payload s).2 ≠ .error .outOfFuel := by
  unfold sendNoValidate
  dsimp only
  repeat' split
  all_goals first
  | exact sendAndFinish_noFuel _ _ _ _ _
  | simp

/-- The guard-off dispatch never reports fuel exhaustion. -/
theorem doRequestNoValidate_noFuel (cfg : OHConfig) (net : Oracle) (method path : String)
    (payload : Option (List (String × String))) (s : OHState) :
    (doRequestNoValidate cfg net method path payload s).2 ≠ .error .outOfFuel := by
  unfold doRequestNoValidate
  split
  · simp
  · rcases hEA : ensureAuthenticated cfg net s with ⟨s1, r1⟩
    have hnf := ensureAuthenticated_noFuel cfg net s
    rw [hEA] at hnf
    cases r1 with
    | error e => simpa using hnf
    | ok u => exact sendNoValidate_noFuel cfg net method path payload s1

/-- The object-name fetch never reports fuel exhaustion under a positive
budget: its nested dispatch runs with the guard off. -/
theorem getObjectNames_noFuel (cfg : OHConfig) (net : Oracle) (f : Nat) (s : OHState) :
    (getObjectNames cfg net (f + 1) s).2 ≠ .error .outOfFuel := by
  unfold getObjectNames
  dsimp only
  split
  · rw [doRequest_guard_off cfg net f "GET" "sobjects" none _ rfl]
    rcases hR : doRequestNoValidate cfg net "GET" "sobjects" none _ with ⟨s1, r1⟩
    have hnf := doRequestNoValidate_noFuel cfg net "GET" "sobjects" none
      { s with validate_salesforce_object := false
               guard_log := s.guard_log ++ [false] }
    rw [hR] at hnf
    cases r1 with
    | error e => simpa using hnf
    | ok body =>
      dsimp only
      rcases hN : namesFromSObjectsBody body with e | ns
      · have hb := namesFrom_noFuel body
        rw [hN] at hb
        simpa using hb
      · simp
  · simp

/-- The object-fields fetch never reports fuel exhaustion under a positive
budget. -/
theorem getObjectFields_noFuel (cfg : OHConfig) (net : Oracle) (f : Nat)
    (name : String) (s : OHState) :
    (getObjectFields cfg net (f + 1) name s).2 ≠ .error .outOfFuel := by
  unfold getObjectFields
  dsimp only
  split
  · simp
  · rw [doRequest_guard_off cfg net f "GET" ("sobjects/" ++ name ++ "/describe") none _ rfl]
    rcases hR : doRequestNoValidate cfg net "GET" ("sobjects/" ++ name ++ "/describe") none _
      with ⟨s1, r1⟩
    have hnf := doRequestNoValidate_noFuel cfg net "GET" ("sobjects/" ++ name ++ "/describe")
      none { s with validate_salesforce_object := false
                    guard_log := s.guard_log ++ [false] }
    rw [hR] at hnf
    cases r1 with
    | error e => simpa using hnf
    | ok body =>
      dsimp only
      rcases hN : fieldsFromDescribeBody body with e | flds
      · have hb := fieldsFrom_noFuel body
        rw [hN] at hb
        simpa using hb
      · simp

/-- The sending tail never reports fuel exhaustion under a positive
budget. -/
theorem doRequestSend_noFuel (cfg : OHConfig) (net : Oracle) (f : Nat)
    (method path : String) (payload : Option (List (String × String)))
    (name : String) (s : OHState) :
    (doRequestSend cfg net (f + 1) method path payload name s).2 ≠
      .error .outOfFuel := by
  unfold doRequestSend
  dsimp only
  split
  · split
    · simp
    · split
      · simp
      · split
        · rcases hF : getObjectFields cfg net (f + 1) name s with ⟨s1, r1⟩
          have hnf := getObjectFields_noFuel cfg net f name s
          rw [hF] at hnf
          cases r1 with
          | error e => simpa using hnf
          | ok flds =>
            rename_i pl hpl hval
            dsimp only
            rcases hV : validatePayloadContent pl flds with e | u
            · have hb := validatePayloadContent_noFuel pl flds
              rw [hV] at hb
              simpa using hb
            · exact sendAndFinish_noFuel _ _ _ _ _
        · exact sendAndFinish_noFuel _ _ _ _ _
  · exact sendAndFinish_noFuel _ _ _ _ _

/-- With recursion budget 2, `do_request` never reports fuel exhaustion:
the recursion depth through the schema fetches is bounded by 2. -/
theorem doRequest_two_noFuel (cfg : OHConfig) (net : Oracle) (method path : String)
    (payload : Option (List (String × String))) (s : OHState) :
    (doRequest cfg net 2 method path payload s).2 ≠ .error .outOfFuel := by
  rw [show (2 : Nat) = 1 + 1 from rfl, doRequest_succ]
  split
  · simp
  · rcases hEA : ensureAuthenticated cfg net s with ⟨s1, r1⟩
    have hnf := ensureAuthenticated_noFuel cfg net s
    rw [hEA] at hnf
    cases r1 with
    | error e => simpa using hnf
    | ok u =>
      dsimp only
      split
      · rcases hO : obtainSalesforceObjectNameFromPath path with e | name
        · have hb := obtain_noFuel path
          rw [hO] at hb
          simpa using hb
        · dsimp only
          split
          · rcases hN : getObjectNames cfg net 1 s1 with ⟨s2, r2⟩
            have hb := getObjectNames_noFuel cfg net 0 s1
            rw [show (0 : Nat) + 1 = 1 from rfl, hN] at hb
            cases r2 with
            | error e => simpa using hb
            | ok ns =>
              dsimp only
              split
              · rw [show (1 : Nat) = 0 + 1 from rfl]
                exact doRequestSend_noFuel cfg net 0 method path payload name s2
              · simp
          · rw [show (1 : Nat) = 0 + 1 from rfl]
            exact doRequestSend_noFuel cfg net 0 method path payload name s1
      · rw [show (1 : Nat) = 0 + 1 from rfl]
        exact doRequestSend_noFuel cfg net 0 method path payload "" s1

/-- A successful send leaves the validation guard enabled (line 262). -/
theorem sendAndFinish_ok_validate (net : Oracle) (method url : String)
    (body : Option (List (String × String))) (s : OHState) (v : JVal) :
    (sendAndFinish net method url body s).2 = .ok v →
    ((sendAndFinish net method url body s).1).validate_salesforce_object = true := by
  rw [sendAndFinish_spec]
  split
  · intro _; rfl
  · intro h; simp at h

/-- A failed send leaves the validation guard as it was. -/
theorem sendAndFinish_error_validate (net : Oracle) (method url : String)
    (body : Option (List (String × String))) (s : OHState) (e : PyErr) :
    (sendAndFinish net method url body s).2 = .error e →
    ((sendAndFinish net method url body s).1).validate_salesforce_object =
      s.validate_salesforce_object := by
  rw [sendAndFinish_spec]
  split
  · intro h; simp at h
  · intro _; rfl

/-- A failed guard-off sending tail leaves the validation guard as it
was. -/
theorem sendNoValidate_error_validate (cfg : OHConfig) (net : Oracle)
    (method path : String) (payload : Option (List (String × String)))
    (s : OHState) (e : PyErr) :
    (sendNoValidate cfg net method path payload s).2 = .error e →
    ((sendNoValidate cfg net method path payload s).1).validate_salesforce_object =
      s.validate_salesforce_object := by
  unfold sendNoValidate
  dsimp only
  repeat' split
  all_goals first
  | exact sendAndFinish_error_validate _ _ _ _ _ _
  | intro h; rfl

/-- A failed guard-off dispatch leaves the validation guard as it was (the
error paths of `do_request` do not touch the guard). -/
theorem doRequestNoValidate_error_validate (cfg : OHConfig) (net : Oracle)
    (method path : String) (payload : Option (List (String × String)))
    (s : OHState) (e : PyErr) :
    (doRequestNoValidate cfg net method path payload s).2 = .error e →
    ((doRequestNoValidate cfg net method path payload s).1).validate_salesforce_object =
      s.validate_salesforce_object := by
  unfold doRequestNoValidate
  split
  · intro _; rfl
  · rcases hEA : ensureAuthenticated cfg net s with ⟨s1, r1⟩
    have hv := (ensureAuthenticated_effect cfg net s).1
    rw [hEA] at hv
    cases r1 with
    | error e1 => intro _; exact hv
    | ok u =>
      intro h
      rw [sendNoValidate_error_validate cfg net method path payload s1 e h]
      exact hv

/-- A dispatch that returns a body leaves the validation guard enabled. -/
theorem doRequestSend_ok_validate (cfg : OHConfig) (net : Oracle) (f : Nat)
    (method path : String) (payload : Option (List (String × String)))
    (name : String) (s : OHState) (v : JVal) :
    (doRequestSend cfg net f method path payload name s).2 = .ok v →
    ((doRequestSend cfg net f method path payload name s).1).validate_salesforce_object =
      true := by
  unfold doRequestSend
  dsimp only
  split
  · split
    · intro h; simp at h
    · split
      · intro h; simp at h
      · split
        · rcases hF : getObjectFields cfg net f name s with ⟨s1, r1⟩
          cases r1 with
          | error e => intro h; simp at h
          | ok flds =>
            rename_i pl hpl hval
            dsimp only
            rcases hV : validatePayloadContent pl flds with e | u
            · intro h; simp at h
            · exact sendAndFinish_ok_validate _ _ _ _ _ v
        · exact sendAndFinish_ok_validate _ _ _ _ _ v
  · exact sendAndFinish_ok_validate _ _ _ _ _ v

/-- Any dispatch that completes successfully leaves the validation guard
enabled — nested schema-fetch dispatches included. -/
theorem doRequest_ok_validate (cfg : OHConfig) (net : Oracle) (fuel : Nat)
    (method path : String) (payload : Option (List (String × String)))
    (s : OHState) (v : JVal) :
    (doRequest cfg net fuel method path payload s).2 = .ok v →
    ((doRequest cfg net fuel method path payload s).1).validate_salesforce_object =
      true := by
  cases fuel with
  | zero => intro h; simp [doRequest] at h
  | succ f =>
    rw [doRequest_succ]
    split
    · intro h; simp at h
    · rcases hEA : ensureAuthenticated cfg net s with ⟨s1, r1⟩
      cases r1 with
      | error e => intro h; simp at h
      | ok u =>
        dsimp only
        split
        · rcases hO : obtainSalesforceObjectNameFromPath path with e | name
          · intro h; simp at h
          · dsimp only
            split
            · rcases hN : getObjectNames cfg net f s1 with ⟨s2, r2⟩
              cases r2 with
              | error e => intro h; simp at h
              | ok ns =>
                dsimp only
                split
                · exact doRequestSend_ok_validate cfg net f method path payload name s2 v
                · intro h; simp at h
            · exact doRequestSend_ok_validate cfg net f method path payload name s1 v
        · exact doRequestSend_ok_validate cfg net f method path payload "" s1 v

/-- Appending a new cache entry never disturbs existing lookups. -/
theorem assocGet_append (l : List (String × List String)) (x : String × List String)
    (k : String) (v : List String) (h : assocGet l k = some v) :
    assocGet (l ++ [x]) k = some v := by
  induction l with
  | nil => simp [assocGet] at h
  | cons y rest ih =>
    rcases y with ⟨ky, vy⟩
    rw [List.cons_append]
    rw [show assocGet ((ky, vy) :: (rest ++ [x])) k =
      if ky = k then some vy else assocGet (rest ++ [x]) k from rfl]
    rw [show assocGet ((ky, vy) :: rest) k =
      if ky = k then some vy else assocGet rest k from rfl] at h
    by_cases hk : ky = k
    · rw [if_pos hk] at h ⊢
      exact h
    · rw [if_neg hk] at h ⊢
      exact ih h

/-- Invariants preserved by every connector operation: once authenticated
the connector stays authenticated with the same session and no further auth
exchanges; a populated object-name cache is never changed; an object-fields
cache entry is never evicted or overwritten. -/
def StepPreserves (s t : OHState) : Prop :=
  (s.is_authenticated = true →
    t.is_authenticated = true ∧ t.auth_calls = s.auth_calls ∧
    t.instance_scheme_and_authority = s.instance_scheme_and_authority ∧
    t.access_token = s.access_token) ∧
  (s.salesforce_object_names_cache ≠ [] →
    t.salesforce_object_names_cache = s.salesforce_object_names_cache) ∧
  (∀ k v, assocGet s.salesforce_object_fields_cache k = some v →
    assocGet t.salesforce_object_fields_cache k = some v)

theorem StepPreserves_refl (s : OHState) : StepPreserves s s :=
  ⟨fun h => ⟨h, rfl, rfl, rfl⟩, fun _ => rfl, fun _ _ h => h⟩

theorem StepPreserves_trans {s t u : OHState} (h1 : StepPreserves s t)
    (h2 : StepPreserves t u) : StepPreserves s u := by
  refine ⟨fun ha => ?_, fun hn => ?_, fun k v hv => ?_⟩
  · obtain ⟨ha1, hc1, hi1, ht1⟩ := h1.1 ha
    obtain ⟨ha2, hc2, hi2, ht2⟩ := h2.1 ha1
    exact ⟨ha2, hc2.trans hc1, hi2.trans hi1, ht2.trans ht1⟩
  · have hn1 := h1.2.1 hn
    have hn2 := h2.2.1 (by rw [hn1]; exact hn)
    exact hn2.trans hn1
  · exact h2.2.2 k v (h1.2.2 k v hv)

/-- States that differ only in guard, guard log and trace are
`StepPreserves`-related. -/
theorem StepPreserves_of_fields {s t : OHState}
    (h1 : t.is_authenticated = s.is_authenticated)
    (h2 : t.auth_calls = s.auth_calls)
    (h3 : t.instance_scheme_and_authority = s.instance_scheme_and_authority)
    (h4 : t.access_token = s.access_token)
    (h5 : t.salesforce_object_names_cache = s.salesforce_object_names_cache)
    (h6 : t.salesforce_object_fields_cache = s.salesforce_object_fields_cache) :
    StepPreserves s t := by
  refine ⟨fun ha => ⟨h1.trans ha, h2, h3, h4⟩, fun _ => h5, fun k v hv => ?_⟩
  rw [h6]
  exact hv

/-- The authentication guard satisfies the preservation invariants: when
already authenticated it does nothing, otherwise it only fills the empty
session. -/
theorem ensureAuthenticated_preserves (cfg : OHConfig) (net : Oracle) (s : OHState) :
    StepPreserves s ((ensureAuthenticated cfg net s).1) := by
  unfold ensureAuthenticated
  split
  · exact StepPreserves_refl s
  · rename_i hna
    have he := authenticate_effect cfg net s
    refine ⟨fun ha => ?_, fun hn => ?_, fun k v hv => ?_⟩
    · rw [ha] at hna; simp at hna
    · exact he.2.2.1
    · rw [he.2.2.2.1]; exact hv

/-- The sending step satisfies the preservation invariants. -/
theorem sendAndFinish_preserves (net : Oracle) (method url : String)
    (body : Option (List (String × String))) (s : OHState) :
    StepPreserves s ((sendAndFinish net method url body s).1) := by
  rw [sendAndFinish_spec]
  split
  · exact StepPreserves_of_fields rfl rfl rfl rfl rfl rfl
  · exact StepPreserves_of_fields rfl rfl rfl rfl rfl rfl

/-- The guard-off sending tail satisfies the preservation invariants. -/
theorem sendNoValidate_preserves (cfg : OHConfig) (net : Oracle) (method path : String)
    (payload : Option (List (String × String))) (s : OHState) :
    StepPreserves s ((sendNoValidate cfg net method path payload s).1) := by
  unfold sendNoValidate
  dsimp only
  repeat' split
  all_goals first
  | exact sendAndFinish_preserves _ _ _ _ _
  | exact StepPreserves_refl _

/-- The guard-off dispatch satisfies the preservation invariants. -/
theorem doRequestNoValidate_preserves (cfg : OHConfig) (net : Oracle)
    (method path : String) (payload : Option (List (String × String))) (s : OHState) :
    StepPreserves s ((doRequestNoValidate cfg net method path payload s).1) := by
  unfold doRequestNoValidate
  split
  · exact StepPreserves_refl _
  · rcases hEA : ensureAuthenticated cfg net s with ⟨s1, r1⟩
    have hp := ensureAuthenticated_preserves cfg net s
    rw [hEA] at hp
    cases r1 with
    | error e => exact hp
    | ok u => exact StepPreserves_trans hp (sendNoValidate_preserves cfg net method path payload s1)

/-- The object-name fetch satisfies the preservation invariants: it only
ever fills an empty cache. -/
theorem getObjectNames_preserves (cfg : OHConfig) (net : Oracle) (fuel : Nat)
    (s : OHState) : StepPreserves s ((getObjectNames cfg net fuel s).1) := by
  unfold getObjectNames
  dsimp only
  split
  · rename_i hEmpty
    have base : StepPreserves s
        { s with validate_salesforce_object := false
                 guard_log := s.guard_log ++ [false] } :=
      StepPreserves_of_fields rfl rfl rfl rfl rfl rfl
    cases fuel with
    | zero => exact base
    | succ f =>
      rw [doRequest_guard_off cfg net f "GET" "sobjects" none _ rfl]
      rcases hR : doRequestNoValidate cfg net "GET" "sobjects" none
        { s with validate_salesforce_object := false
                 guard_log := s.guard_log ++ [false] } with ⟨s1, r1⟩
      have hp := doRequestNoValidate_preserves cfg net "GET" "sobjects" none
        { s with validate_salesforce_object := false
                 guard_log := s.guard_log ++ [false] }
      rw [hR] at hp
      have hp2 : StepPreserves s s1 := StepPreserves_trans base hp
      cases r1 with
      | error e => exact hp2
      | ok body =>
        dsimp only
        rcases hN : namesFromSObjectsBody body with e | ns
        · exact hp2
        · refine ⟨fun ha => hp2.1 ha, fun hn => ?_, fun k v hv => hp2.2.2 k v hv⟩
          exact absurd (List.isEmpty_iff.mp hEmpty) hn
  · exact StepPreserves_refl s

/-- The object-fields fetch satisfies the preservation invariants: it only
ever appends a missing entry. -/
theorem getObjectFields_preserves (cfg : OHConfig) (net : Oracle) (fuel : Nat)
    (name : String) (s : OHState) :
    StepPreserves s ((getObjectFields cfg net fuel name s).1) := by
  unfold getObjectFields
  dsimp only
  split
  · exact StepPreserves_refl s
  · have base : StepPreserves s
        { s with validate_salesforce_object := false
                 guard_log := s.guard_log ++ [false] } :=
      StepPreserves_of_fields rfl rfl rfl rfl rfl rfl
    cases fuel with
    | zero => exact base
    | succ f =>
      rw [doRequest_guard_off cfg net f "GET" ("sobjects/" ++ name ++ "/describe") none _ rfl]
      rcases hR : doRequestNoValidate cfg net "GET" ("sobjects/" ++ name ++ "/describe") none
        { s with validate_salesforce_object := false
                 guard_log := s.guard_log ++ [false] } with ⟨s1, r1⟩
      have hp := doRequestNoValidate_preserves cfg net "GET"
        ("sobjects/" ++ name ++ "/describe") none
        { s with validate_salesforce_object := false
                 guard_log := s.guard_log ++ [false] }
      rw [hR] at hp
      have hp2 : StepPreserves s s1 := StepPreserves_trans base hp
      cases r1 with
      | error e => exact hp2
      | ok body =>
        dsimp only
        rcases hN : fieldsFromDescribeBody body with e | flds
        · exact hp2
        · refine ⟨fun ha => hp2.1 ha, fun hn => hp2.2.1 hn, fun k v hv => ?_⟩
          exact assocGet_append _ _ k v (hp2.2.2 k v hv)

/-- The sending tail satisfies the preservation invariants. -/
theorem doRequestSend_preserves (cfg : OHConfig) (net : Oracle) (f : Nat)
    (method path : String) (payload : Option (List (String × String)))
    (name : String) (s : OHState) :
    StepPreserves s ((doRequestSend cfg net f method path payload name s).1) := by
  unfold doRequestSend
  dsimp only
  split
  · split
    · exact StepPreserves_refl s
    · split
      · exact StepPreserves_refl s
      · split
        · rcases hF : getObjectFields cfg net f name s with ⟨s1, r1⟩
          have hp := getObjectFields_preserves cfg net f name s
          rw [hF] at hp
          cases r1 with
          | error e => exact hp
          | ok flds =>
            rename_i pl hpl hval
            dsimp only
            rcases hV : validatePayloadContent pl flds with e | u
            · exact hp
            · exact StepPreserves_trans hp (sendAndFinish_preserves _ _ _ _ _)
        · exact sendAndFinish_preserves _ _ _ _ _
  · exact sendAndFinish_preserves _ _ _ _ _

/-- Every dispatch satisfies the preservation invariants: once
authenticated the connector never re-authenticates and the session stays
fixed; a populated object-name cache is never changed; field-cache entries
are never evicted or overwritten. -/
theorem doRequest_preserves (cfg : OHConfig) (net : Oracle) (fuel : Nat)
    (method path : String) (payload : Option (List (String × String)))
    (s : OHState) :
    StepPreserves s ((doRequest cfg net fuel method path payload s).1) := by
  cases fuel with
  | zero => exact StepPreserves_refl s
  | succ f =>
    rw [doRequest_succ]
    split
    · exact StepPreserves_refl s
    · rcases hEA : ensureAuthenticated cfg net s with ⟨s1, r1⟩
      have hp := ensureAuthenticated_preserves cfg net s
      rw [hEA] at hp
      cases r1 with
      | error e => exact hp
      | ok u =>
        dsimp only
        split
        · rcases hO : obtainSalesforceObjectNameFromPath path with e | name
          · exact hp
          · dsimp only
            split
            · rcases hN : getObjectNames cfg net f s1 with ⟨s2, r2⟩
              have hp2 := getObjectNames_preserves cfg net f s1
              rw [hN] at hp2
              have hp3 := StepPreserves_trans hp hp2
              cases r2 with
              | error e => exact hp3
              | ok ns =>
                dsimp only
                split
                · exact StepPreserves_trans hp3
                    (doRequestSend_preserves cfg net f method path payload name s2)
                · exact hp3
            · exact StepPreserves_trans hp
                (doRequestSend_preserves cfg net f method path payload name s1)
        · exact StepPreserves_trans hp
            (doRequestSend_preserves cfg net f method path payload "" s1)

/-- Salesforce `GET sobjects` response body listing the given object
names. -/
def sobjectsBody (names : List String) : JVal :=
  .jobj [("sobjects", .jarr (names.map (fun n => .jobj [("name", .jstr n)])))]

/-- Salesforce describe response body listing the given field names. -/
def describeBody (flds : List String) : JVal :=
  .jobj [("fields", .jarr (flds.map (fun n => .jobj [("name", .jstr n)])))]

/-- Collecting the `name` entries of a well-formed record list recovers the
names. -/
theorem collectNames_map (ns : List String) :
    collectNames (ns.map (fun n => .jobj [("name", .jstr n)])) = .ok ns := by
  induction ns with
  | nil => rfl
  | cons n rest ih => simp [collectNames, dictGet, JVal.asString, ih]

/-- Parsing a well-formed `sobjects` body recovers the object names. -/
theorem namesFrom_sobjectsBody (ns : List String) :
    namesFromSObjectsBody (sobjectsBody ns) = .ok ns := by
  simp [namesFromSObjectsBody, sobjectsBody, dictGet, collectNames_map]

/-- Parsing a well-formed describe body recovers the field names. -/
theorem fieldsFrom_describeBody (flds : List String) :
    fieldsFromDescribeBody (describeBody flds) = .ok flds := by
  simp [fieldsFromDescribeBody, describeBody, dictGet, collectNames_map]

/-- A payload whose keys are all valid fields passes validation. -/
theorem validatePayloadContent_ok (pl : List (String × String)) (flds : List String)
    (h : ∀ kv ∈ pl, flds.contains kv.1 = true) :
    validatePayloadContent pl flds = .ok () := by
  induction pl with
  | nil => rfl
  | cons kv rest ih =>
    rcases kv with ⟨f, v⟩
    have hf : flds.contains f = true := h (f, v) (by simp)
    unfold validatePayloadContent
    simp only [hf, if_true]
    exact ih (fun kv hkv => h kv (List.mem_cons_of_mem _ hkv))

/-- Appending a missing key makes it found. -/
theorem assocGet_append_self (l : List (String × List String)) (k : String)
    (v : List String) (h : assocGet l k = none) :
    assocGet (l ++ [(k, v)]) k = some v := by
  induction l with
  | nil => simp [assocGet]
  | cons y rest ih =>
    rcases y with ⟨ky, vy⟩
    rw [show assocGet ((ky, vy) :: rest) k =
      if ky = k then some vy else assocGet rest k from rfl] at h
    rw [List.cons_append, show assocGet ((ky, vy) :: (rest ++ [(k, v)])) k =
      if ky = k then some vy else assocGet (rest ++ [(k, v)]) k from rfl]
    by_cases hk : ky = k
    · rw [if_pos hk] at h
      simp at h
    · rw [if_neg hk] at h ⊢
      exact ih h

/-- The guard-off sending tail never touches the schema caches. -/
theorem sendNoValidate_caches (cfg : OHConfig) (net : Oracle) (method path : String)
    (payload : Option (List (String × String))) (s : OHState) :
    ((sendNoValidate cfg net method path payload s).1).salesforce_object_names_cache =
      s.salesforce_object_names_cache ∧
    ((sendNoValidate cfg net method path payload s).1).salesforce_object_fields_cache =
      s.salesforce_object_fields_cache := by
  unfold sendNoValidate
  dsimp only
  repeat' split
  all_goals first
  | exact ⟨rfl, rfl⟩
  | (rw [sendAndFinish_spec]; split <;> exact ⟨rfl, rfl⟩)

/-- The guard-off dispatch never touches the schema caches. -/
theorem doRequestNoValidate_caches (cfg : OHConfig) (net : Oracle) (method path : String)
    (payload : Option (List (String × String))) (s : OHState) :
    ((doRequestNoValidate cfg net method path payload s).1).salesforce_object_names_cache =
      s.salesforce_object_names_cache ∧
    ((doRequestNoValidate cfg net method path payload s).1).salesforce_object_fields_cache =
      s.salesforce_object_fields_cache := by
  unfold doRequestNoValidate
  split
  · exact ⟨rfl, rfl⟩
  · rcases hEA : ensureAuthenticated cfg net s with ⟨s1, r1⟩
    have he := ensureAuthenticated_effect cfg net s
    rw [hEA] at he
    cases r1 with
    | error e => exact ⟨he.2.2.1, he.2.2.2⟩
    | ok u =>
      have hs := sendNoValidate_caches cfg net method path payload s1
      exact ⟨hs.1.trans he.2.2.1, hs.2.trans he.2.2.2⟩

/-- A successful object-name fetch leaves exactly the returned list in the
cache. -/
theorem getObjectNames_ok_cache (cfg : OHConfig) (net : Oracle) (fuel : Nat)
    (s : OHState) (ns : List String) :
    (getObjectNames cfg net fuel s).2 = .ok ns →
    ((getObjectNames cfg net fuel s).1).salesforce_object_names_cache = ns := by
  unfold getObjectNames
  dsimp only
  split
  · rcases hR : doRequest cfg net fuel "GET" "sobjects" none _ with ⟨s1, r1⟩
    cases r1 with
    | error e => intro h; simp at h
    | ok body =>
      dsimp only
      rcases hN : namesFromSObjectsBody body with e | ns1
      · intro h; simp at h
      · intro h
        have : ns1 = ns := by simpa using h
        simpa using this
  · intro h
    simp at h
    simpa using h
  
/-- A populated object-name cache short-circuits the fetch. -/
theorem getObjectNames_cached (cfg : OHConfig) (net : Oracle) (fuel : Nat)
    (s : OHState) (h : s.salesforce_object_names_cache ≠ []) :
    getObjectNames cfg net fuel s = (s, .ok s.salesforce_object_names_cache) := by
  unfold getObjectNames
  rw [if_neg]
  simpa using h

/-- A cached object name short-circuits the fields fetch. -/
theorem getObjectFields_cached (cfg : OHConfig) (net : Oracle) (fuel : Nat)
    (name : String) (s : OHState) (fs : List String)
    (h : assocGet s.salesforce_object_fields_cache name = some fs) :
    getObjectFields cfg net fuel name s = (s, .ok fs) := by
  unfold getObjectFields
  rw [h]

/-- A successful object-fields fetch leaves the returned list in the cache
under its name. -/
theorem getObjectFields_ok_cache (cfg : OHConfig) (net : Oracle) (fuel : Nat)
    (name : String) (s : OHState) (fs : List String) :
    (getObjectFields cfg net fuel name s).2 = .ok fs →
    assocGet ((getObjectFields cfg net fuel name s).1).salesforce_object_fields_cache
      name = some fs := by
  unfold getObjectFields
  dsimp only
  split
  · rename_i flds hhit
    intro h
    have : flds = fs := by simpa using h
    rw [← this]
    exact hhit
  · rename_i hmiss
    cases fuel with
    | zero =>
      intro h
      simp [doRequest] at h
    | succ f =>
      rw [doRequest_guard_off cfg net f "GET" ("sobjects/" ++ name ++ "/describe") none _ rfl]
      rcases hR : doRequestNoValidate cfg net "GET" ("sobjects/" ++ name ++ "/describe") none
        { s with validate_salesforce_object := false
                 guard_log := s.guard_log ++ [false] } with ⟨s1, r1⟩
      have hc := doRequestNoValidate_caches cfg net "GET" ("sobjects/" ++ name ++ "/describe")
        none { s with validate_salesforce_object := false
                      guard_log := s.guard_log ++ [false] }
      rw [hR] at hc
      cases r1 with
      | error e => intro h; simp at h
      | ok body =>
        dsimp only
        rcases hN : fieldsFromDescribeBody body with e | flds
        · intro h; simp at h
        · intro h
          have hfs : flds = fs := by simpa using h
          have hnone : assocGet s1.salesforce_object_fields_cache name = none := by
            rw [show s1.salesforce_object_fields_cache =
              s.salesforce_object_fields_cache from hc.2]
            exact hmiss
          rw [← hfs]
          exact assocGet_append_self _ name flds hnone

/-- The sending step appends exactly its request to the trace. -/
theorem sendAndFinish_trace (net : Oracle) (method url : String)
    (body : Option (List (String × String))) (s : OHState) :
    ((sendAndFinish net method url body s).1).trace = s.trace ++ [⟨method, url, body⟩] := by
  rw [sendAndFinish_spec]
  split <;> rfl

/-- On an authenticated state, a guard-off GET dispatch is exactly one
network call. -/
theorem doRequestNoValidate_get_authed (cfg : OHConfig) (net : Oracle) (path : String)
    (s : OHState) (h : s.is_authenticated = true) :
    doRequestNoValidate cfg net "GET" path none s =
      sendAndFinish net "GET" (mkUrl s.instance_scheme_and_authority cfg.api_version path)
        none s := by
  have hg : (!(["POST", "GET", "PATCH", "DELETE"].contains "GET")) = false := by decide
  have hgp : (("GET" == "POST") || ("GET" == "PATCH")) = false := by decide
  unfold doRequestNoValidate ensureAuthenticated sendNoValidate
  simp [h, hg, hgp]

/-- A first (cache-miss) object-name fetch on an authenticated connector
issues exactly one network call: `GET sobjects`. -/
theorem getObjectNames_first_trace (cfg : OHConfig) (net : Oracle) (f : Nat)
    (s : OHState) (hauth : s.is_authenticated = true)
    (hmiss : s.salesforce_object_names_cache = []) :
    ((getObjectNames cfg net (f + 1) s).1).trace =
      s.trace ++ [⟨"GET", mkUrl s.instance_scheme_and_authority cfg.api_version "sobjects",
        none⟩] := by
  unfold getObjectNames
  rw [if_pos (by simp [hmiss])]
  dsimp only
  rw [doRequest_guard_off cfg net f "GET" "sobjects" none _ rfl]
  rw [doRequestNoValidate_get_authed cfg net "sobjects"
    { s with validate_salesforce_object := false
             guard_log := s.guard_log ++ [false] }
    (show ({ s with validate_salesforce_object := false
                    guard_log := s.guard_log ++ [false] } : OHState).is_authenticated = true
      from hauth)]
  rcases hS : sendAndFinish net "GET"
    (mkUrl s.instance_scheme_and_authority cfg.api_version "sobjects") none
    { s with validate_salesforce_object := false
             guard_log := s.guard_log ++ [false] } with ⟨s1, r1⟩
  have ht := sendAndFinish_trace net "GET"
    (mkUrl s.instance_scheme_and_authority cfg.api_version "sobjects") none
    { s with validate_salesforce_object := false
             guard_log := s.guard_log ++ [false] }
  rw [hS] at ht
  cases r1 with
  | error e => exact ht
  | ok body =>
    dsimp only
    rcases hN : namesFromSObjectsBody body with e | ns
    · exact ht
    · exact ht

/-- A first (cache-miss) object-fields fetch on an authenticated connector
issues exactly one network call: the describe GET for that name. -/
theorem getObjectFields_first_trace (cfg : OHConfig) (net : Oracle) (f : Nat)
    (name : String) (s : OHState) (hauth : s.is_authenticated = true)
    (hmiss : assocGet s.salesforce_object_fields_cache name = none) :
    ((getObjectFields cfg net (f + 1) name s).1).trace =
      s.trace ++ [⟨"GET", mkUrl s.instance_scheme_and_authority cfg.api_version
        ("sobjects/" ++ name ++ "/describe"), none⟩] := by
  unfold getObjectFields
  rw [hmiss]
  dsimp only
  rw [doRequest_guard_off cfg net f "GET" ("sobjects/" ++ name ++ "/describe") none _ rfl]
  rw [doRequestNoValidate_get_authed cfg net ("sobjects/" ++ name ++ "/describe")
    { s with validate_salesforce_object := false
             guard_log := s.guard_log ++ [false] }
    (show ({ s with validate_salesforce_object := false
                    guard_log := s.guard_log ++ [false] } : OHState).is_authenticated = true
      from hauth)]
  rcases hS : sendAndFinish net "GET"
    (mkUrl s.instance_scheme_and_authority cfg.api_version
      ("sobjects/" ++ name ++ "/describe")) none
    { s with validate_salesforce_object := false
             guard_log := s.guard_log ++ [false] } with ⟨s1, r1⟩
  have ht := sendAndFinish_trace net "GET"
    (mkUrl s.instance_scheme_and_authority cfg.api_version
      ("sobjects/" ++ name ++ "/describe")) none
    { s with validate_salesforce_object := false
             guard_log := s.guard_log ++ [false] }
  rw [hS] at ht
  cases r1 with
  | error e => exact ht
  | ok body =>
    dsimp only
    rcases hN : fieldsFromDescribeBody body with e | flds
    · exact ht
    · exact ht

/-- The sending step only appends to the guard log. -/
theorem sendAndFinish_log (net : Oracle) (method url : String)
    (body : Option (List (String × String))) (s : OHState) :
    ∃ t, ((sendAndFinish net method url body s).1).guard_log = s.guard_log ++ t := by
  rw [sendAndFinish_spec]
  split
  · exact ⟨[true], rfl⟩
  · exact ⟨[], by simp⟩

/-- The guard-off sending tail only appends to the guard log. -/
theorem sendNoValidate_log (cfg : OHConfig) (net : Oracle) (method path : String)
    (payload : Option (List (String × String))) (s : OHState) :
    ∃ t, ((sendNoValidate cfg net method path payload s).1).guard_log =
      s.guard_log ++ t := by
  unfold sendNoValidate
  dsimp only
  repeat' split
  all_goals first
  | exact sendAndFinish_log _ _ _ _ _
  | exact ⟨[], by simp⟩

/-- The guard-off dispatch only appends to the guard log. -/
theorem doRequestNoValidate_log (cfg : OHConfig) (net : Oracle) (method path : String)
    (payload : Option (List (String × String))) (s : OHState) :
    ∃ t, ((doRequestNoValidate cfg net method path payload s).1).guard_log =
      s.guard_log ++ t := by
  unfold doRequestNoValidate
  split
  · exact ⟨[], by simp⟩
  · rcases hEA : ensureAuthenticated cfg net s with ⟨s1, r1⟩
    have he := (ensureAuthenticated_effect cfg net s).2.1
    rw [hEA] at he
    cases r1 with
    | error e => exact ⟨[], by simpa using he⟩
    | ok u =>
      obtain ⟨t, ht⟩ := sendNoValidate_log cfg net method path payload s1
      refine ⟨t, ?_⟩
      rw [ht]
      simpa using he

/-- A cache-miss object-name fetch writes `false` to the guard log before
its nested dispatch, and everything later in the fetch only appends. -/
theorem getObjectNames_miss_log (cfg : OHConfig) (net : Oracle) (fuel : Nat)
    (s : OHState) (hmiss : s.salesforce_object_names_cache = []) :
    ∃ t, ((getObjectNames cfg net fuel s).1).guard_log =
      s.guard_log ++ false :: t := by
  unfold getObjectNames
  rw [if_pos (by simp [hmiss])]
  dsimp only
  cases fuel with
  | zero => exact ⟨[], by simp [doRequest]⟩
  | succ f =>
    rw [doRequest_guard_off cfg net f "GET" "sobjects" none _ rfl]
    rcases hR : doRequestNoValidate cfg net "GET" "sobjects" none
      { s with validate_salesforce_object := false
               guard_log := s.guard_log ++ [false] } with ⟨s1, r1⟩
    obtain ⟨t, ht⟩ := doRequestNoValidate_log cfg net "GET" "sobjects" none
      { s with validate_salesforce_object := false
               guard_log := s.guard_log ++ [false] }
    rw [hR] at ht
    have ht2 : s1.guard_log = s.guard_log ++ false :: t := by
      simpa using ht
    cases r1 with
    | error e => exact ⟨t, ht2⟩
    | ok body =>
      dsimp only
      rcases hN : namesFromSObjectsBody body with e | ns
      · exact ⟨t, ht2⟩
      · exact ⟨t, ht2⟩

/-- Claim C1 (code_bug record): the values `_obtain_salesforce_object_name_from_path`
actually computes at the five inputs tabulated by the spec.  The three
sobjects-shaped examples agree with the spec, but in the SOQL examples the
code builds its regexes without escaping `+`, so `FROM+(.*)` captures
"+Account" (the spec tabulates "Account") and `FROM+(.*)+WHERE` captures
the empty string (the spec tabulates "Account"). -/
theorem objectNameFromPath_code_values :
    obtainSalesforceObjectNameFromPath "sobjects/Account/describe" = .ok "Account" ∧
    obtainSalesforceObjectNameFromPath "sobjects/Contact" = .ok "Contact" ∧
    obtainSalesforceObjectNameFromPath "sobjects" = .ok "" ∧
    obtainSalesforceObjectNameFromPath "query?q=SELECT+Name+FROM+Account" =
      .ok "+Account" ∧
    obtainSalesforceObjectNameFromPath
      "query?q=SELECT+Name+FROM+Account+WHERE+Id=\x271\x27" = .ok "" :=
  ⟨by decide, by decide, by decide, by decide, by decide⟩

/-- Claim C5 counterexample: the path "foo" matches none of the four rule
shapes, and on it the function does not return a string — it raises
ValueError (from `path.index("sobjects")`), refuting totality. -/
theorem objectNameFromPath_total_counterexample :
    strContainsSub "foo" "describe" = false ∧
    strContainsSub "foo" "query?q=SELECT" = false ∧
    strContainsSub "foo" "sobjects" = false ∧
    obtainSalesforceObjectNameFromPath "foo" =
      .error (.valueError "substring not found") :=
  ⟨by decide, by decide, by decide, by decide⟩

/-- Claim C5 as amended: the path interpreter is a pure deterministic
function of the path (by construction it takes no oracle and no state), it
returns a string on every SOQL-shaped path (the permissive fallback), but
it is not total: on a path containing none of "describe", "query?q=SELECT"
and "sobjects" it raises ValueError. -/
theorem objectNameFromPath_not_total (path : String) :
    (strContainsSub path "describe" = false →
      strContainsSub path "query?q=SELECT" = true →
      ∃ s, obtainSalesforceObjectNameFromPath path = .ok s) ∧
    (strContainsSub path "describe" = false →
      strContainsSub path "query?q=SELECT" = false →
      strContainsSub path "sobjects" = false →
      obtainSalesforceObjectNameFromPath path =
        .error (.valueError "substring not found")) := by
  constructor
  · intro h1 h2
    unfold obtainSalesforceObjectNameFromPath
    rw [if_neg (by simp [h1]), if_pos h2]
    split
    · rcases hw : reSearchFromWhere path with _ | m
      · exact ⟨"", rfl⟩
      · exact ⟨m, rfl⟩
    · rcases hw : reSearchFromTail path with _ | m
      · exact ⟨"", rfl⟩
      · exact ⟨m, rfl⟩
  · intro h1 h2 h3
    have h4 : path ≠ "sobjects" := by
      intro he
      rw [he] at h3
      exact (by decide : strContainsSub "sobjects" "sobjects" ≠ false) h3
    have h5 : chListFind path.toList "sobjects".toList = none := by
      unfold strContainsSub at h3
      rcases hf : chListFind path.toList "sobjects".toList with _ | i
      · rfl
      · rw [hf] at h3
        simp at h3
    unfold obtainSalesforceObjectNameFromPath
    rw [if_neg (by simp [h1]), if_neg (by simp [h2]), if_neg h4, h5]

/-- Witness for the amended claim C5, at a SOQL path and at "foo". -/
theorem objectNameFromPath_not_total_witness :
    (∃ s, obtainSalesforceObjectNameFromPath "query?q=SELECT+Name+FROM+Account" = .ok s) ∧
    obtainSalesforceObjectNameFromPath "foo" =
      .error (.valueError "substring not found") :=
  ⟨(objectNameFromPath_not_total "query?q=SELECT+Name+FROM+Account").1 (by decide) (by decide),
   (objectNameFromPath_not_total "foo").2 (by decide) (by decide) (by decide)⟩

/-- Claim C8: `_validate_payload_content` fails with ValueError naming
exactly the first payload key (in payload order) not among the allowed
fields, raising nothing further for later offenders; a payload whose keys
are all allowed — the empty payload in particular — passes, and the
function (a pure function in this embedding, as in the source, which only
reads its arguments) changes nothing. -/
theorem validate_payload_first_offender (pl : List (String × String))
    (flds : List String) :
    validatePayloadContent pl flds =
      (match (pl.map Prod.fst).find? (fun k => !(flds.contains k)) with
       | none => .ok ()
       | some k => .error (.valueError (k ++ " isn\x27t a valid field"))) ∧
    validatePayloadContent [] flds = .ok () := by
  constructor
  · induction pl with
    | nil => rfl
    | cons kv rest ih =>
      rcases kv with ⟨f, v⟩
      unfold validatePayloadContent
      by_cases hc : flds.contains f
      · simp only [List.map_cons, List.find?_cons, hc, Bool.not_true, if_pos]
        exact ih
      · have hc2 : flds.contains f = false := by simpa using hc
        simp only [List.map_cons, List.find?_cons, hc2, Bool.not_false, if_neg]
        simp [hc2]
  · rfl

/-- Claim C2: dispatching (POST, "sobjects/Contact", non-empty payload with
valid keys) on a freshly constructed connector issues exactly four network
calls — the auth exchange, GET sobjects, GET sobjects/Contact/describe,
POST sobjects/Contact — in that order, and returns the POST response body
unmodified.  The hypotheses say the transport answers each of the four
requests successfully, lists "Contact" among the object names, and lists
every payload key among the Contact fields. -/
theorem dispatch_post_contact_four_calls (cfg : OHConfig) (net : Oracle) (u tok : String)
    (pl : List (String × String)) (names flds : List String) (b : JVal)
    (hauth : net (authRequest cfg) =
      { ok := true, body := .jobj [("instance_url", .jstr u), ("access_token", .jstr tok)] })
    (hnames : net ⟨"GET", mkUrl u cfg.api_version "sobjects", none⟩ =
      { ok := true, body := sobjectsBody names })
    (hcontact : names.contains "Contact" = true)
    (hdesc : net ⟨"GET", mkUrl u cfg.api_version "sobjects/Contact/describe", none⟩ =
      { ok := true, body := describeBody flds })
    (hflds : ∀ kv ∈ pl, flds.contains kv.1 = true)
    (hpl : pl ≠ [])
    (hpost : net ⟨"POST", mkUrl u cfg.api_version "sobjects/Contact", some pl⟩ =
      { ok := true, body := b }) :
    (doRequest cfg net 2 "POST" "sobjects/Contact" (some pl) initState).2 = .ok b ∧
    (doRequest cfg net 2 "POST" "sobjects/Contact" (some pl) initState).1.trace =
      [authRequest cfg,
       ⟨"GET", mkUrl u cfg.api_version "sobjects", none⟩,
       ⟨"GET", mkUrl u cfg.api_version "sobjects/Contact/describe", none⟩,
       ⟨"POST", mkUrl u cfg.api_version "sobjects/Contact", some pl⟩] := by
  have hm : (["POST", "GET", "PATCH", "DELETE"].contains "POST") = true := by decide
  have hmg : (["POST", "GET", "PATCH", "DELETE"].contains "GET") = true := by decide
  have ho : obtainSalesforceObjectNameFromPath "sobjects/Contact" = .ok "Contact" := by
    decide
  have hple : pl.isEmpty = false := by
    cases pl
    · exact absurd rfl hpl
    · rfl
  have hval : validatePayloadContent pl flds = .ok () :=
    validatePayloadContent_ok pl flds hflds
  have hmem : "Contact" ∈ names := List.mem_of_elem_eq_true hcontact
  refine ⟨?_, ?_⟩ <;>
    simp [show (2 : Nat) = 1 + 1 from rfl, doRequest_succ, getObjectNames, getObjectFields,
      doRequestSend, ensureAuthenticated, authenticate, sendAndFinish_spec, initState,
      assocGet, dictGet, JVal.asString, namesFrom_sobjectsBody, fieldsFrom_describeBody,
      hauth, hnames, hdesc, hpost, hcontact, ho, hval, hple, hm, hmg, hmem]

/-- Witness for claim C2 on the concrete fixtures. -/
theorem dispatch_post_contact_four_calls_witness :
    testRun.2 = .ok testPostBody ∧
    testRun.1.trace =
      [authRequest testCfg,
       ⟨"GET", mkUrl testInstanceUrl testCfg.api_version "sobjects", none⟩,
       ⟨"GET", mkUrl testInstanceUrl testCfg.api_version "sobjects/Contact/describe", none⟩,
       ⟨"POST", mkUrl testInstanceUrl testCfg.api_version "sobjects/Contact",
         some testPayload⟩] :=
  dispatch_post_contact_four_calls testCfg testNet testInstanceUrl "tok" testPayload
    ["Account", "Contact"] ["FirstName", "LastName", "Email"] testPostBody
    rfl rfl (by decide) rfl (by decide) (by decide) rfl

/-- Claim C3 counterexample: in the end-to-end run the chronological list of
values assigned to `_validate_salesforce_object` is
[false, true, false, true, true]; its entry at position 1 is an assignment
of `true` performed when the nested `GET sobjects` fetch succeeds — three
further assignments follow it, so the guard is already true at an
intermediate point of the outer dispatch, refuting that it becomes true
only after the outer request completes. -/
theorem guard_restored_mid_dispatch_counterexample :
    testRun.1.guard_log = [false, true, false, true, true] ∧
    testRun.1.guard_log.get? 1 = some true ∧
    testRun.2 = .ok testPostBody :=
  ⟨rfl, rfl, rfl⟩

/-- Claim C3 as amended: the guard is set false immediately before each
nested schema fetch, and it is restored to true as soon as any request —
the nested fetch itself included — completes successfully; hence after a
successful nested fetch the guard is already true before the outer request
finishes (in the end-to-end run the assignment log is
[false, true, false, true, true]). -/
theorem guard_toggle_behaviour (cfg : OHConfig) (net : Oracle) (fuel : Nat)
    (method path : String) (payload : Option (List (String × String)))
    (s : OHState) (v : JVal) :
    ((doRequest cfg net fuel method path payload s).2 = .ok v →
      ((doRequest cfg net fuel method path payload s).1).validate_salesforce_object =
        true) ∧
    (s.salesforce_object_names_cache = [] →
      ∃ rest, ((getObjectNames cfg net fuel s).1).guard_log =
        s.guard_log ++ false :: rest) ∧
    testRun.1.guard_log = [false, true, false, true, true] :=
  ⟨doRequest_ok_validate cfg net fuel method path payload s v,
   fun hmiss => getObjectNames_miss_log cfg net fuel s hmiss, rfl⟩

/-- Witness for the amended claim C3: the end-to-end run ends with the
guard enabled, and a cache-miss fetch from the fresh state logs `false`
first. -/
theorem guard_toggle_behaviour_witness :
    testRun.1.validate_salesforce_object = true ∧
    (∃ rest, ((getObjectNames testCfg testNet 1 initState).1).guard_log =
      initState.guard_log ++ false :: rest) :=
  ⟨(guard_toggle_behaviour testCfg testNet 2 "POST" "sobjects/Contact" (some testPayload)
      initState testPostBody).1 rfl,
   (guard_toggle_behaviour testCfg testNet 1 "GET" "sobjects" none initState
      testPostBody).2.1 rfl⟩

/-- Claim C4: a dispatch on a guard-off state — which is how every nested
schema-fetch dispatch is issued — equals the straight-line
`doRequestNoValidate`, which by construction performs no object-name check,
no payload validation and no schema fetch; consequently recursion budget 2
fully determines `do_request` (depth is bounded by 2) and the budget is
never exhausted: every dispatch terminates. -/
theorem nested_dispatch_bounded (cfg : OHConfig) (net : Oracle) (f : Nat)
    (method path : String) (payload : Option (List (String × String))) (s : OHState) :
    (s.validate_salesforce_object = false →
      doRequest cfg net (f + 1) method path payload s =
        doRequestNoValidate cfg net method path payload s) ∧
    doRequest cfg net (f + 2) method path payload s =
      doRequest cfg net 2 method path payload s ∧
    (doRequest cfg net 2 method path payload s).2 ≠ .error .outOfFuel :=
  ⟨fun h => doRequest_guard_off cfg net f method path payload s h,
   doRequest_fuel cfg net f method path payload s,
   doRequest_two_noFuel cfg net method path payload s⟩

/-- Witness for claim C4 at the concrete fixtures and a guard-off state. -/
theorem nested_dispatch_bounded_witness :
    doRequest testCfg testNet 1 "GET" "sobjects" none
      { initState with validate_salesforce_object := false } =
      doRequestNoValidate testCfg testNet "GET" "sobjects" none
        { initState with validate_salesforce_object := false } ∧
    (doRequest testCfg testNet 2 "POST" "sobjects/Contact" (some testPayload)
      initState).2 ≠ .error .outOfFuel :=
  ⟨(nested_dispatch_bounded testCfg testNet 0 "GET" "sobjects" none
      { initState with validate_salesforce_object := false }).1 rfl,
   (nested_dispatch_bounded testCfg testNet 0 "POST" "sobjects/Contact"
      (some testPayload) initState).2.2⟩

/-- An already-authenticated connector state with empty caches. -/
def authedState : OHState :=
  { initState with is_authenticated := true
                   instance_scheme_and_authority := testInstanceUrl
                   access_token := "tok" }

/-- A transport whose every answer is a successful but empty `sobjects`
listing. -/
def emptyNet : Oracle := fun _ => { ok := true, body := sobjectsBody [] }

/-- A transport that fails every request. -/
def failNet : Oracle := fun _ => { ok := false, body := .jobj [] }

/-- An auth endpoint whose success body carries `instance_url` but lacks
`access_token`. -/
def noTokenNet : Oracle :=
  fun _ => { ok := true, body := .jobj [("instance_url", .jstr "https://sf.example")] }

/-- Claim C6 counterexample: when Salesforce answers `GET sobjects` with an
empty list, the cache test `if not cache` stays true, so a second
`objectNames()` call issues a second network call — two calls produce two
trace entries, refuting "called N times issues exactly one GET sobjects
call". -/
theorem objectNames_refetch_counterexample :
    ((getObjectNames testCfg emptyNet 1 authedState).1).trace.length = 1 ∧
    (getObjectNames testCfg emptyNet 1 authedState).2 = .ok [] ∧
    ((getObjectNames testCfg emptyNet 1
      ((getObjectNames testCfg emptyNet 1 authedState).1)).1).trace.length = 2 ∧
    (getObjectNames testCfg emptyNet 1
      ((getObjectNames testCfg emptyNet 1 authedState).1)).2 = .ok [] :=
  ⟨rfl, rfl, rfl, rfl⟩

/-- Claim C6 as amended: provided the fetched object-name list is non-empty,
`objectNames()` fetches once and every later call returns the same list
without any network call; a first call on an authenticated cache-miss
connector issues exactly one `GET sobjects`; `objectFields(name)` fetches
once per name — a repeat call for the same name is answered from the cache
with no network call, while an uncached name issues its own describe call —
and no cache entry is ever evicted or overwritten by any dispatch. -/
theorem schema_cache_once (cfg : OHConfig) (net : Oracle) (f f2 : Nat)
    (name name2 : String) (s : OHState) (ns fs : List String)
    (method path : String) (payload : Option (List (String × String))) :
    ((getObjectNames cfg net f s).2 = .ok ns → ns ≠ [] →
      getObjectNames cfg net f2 ((getObjectNames cfg net f s).1) =
        ((getObjectNames cfg net f s).1, .ok ns)) ∧
    (s.is_authenticated = true → s.salesforce_object_names_cache = [] →
      ((getObjectNames cfg net (f + 1) s).1).trace =
        s.trace ++ [⟨"GET", mkUrl s.instance_scheme_and_authority cfg.api_version
          "sobjects", none⟩]) ∧
    ((getObjectFields cfg net f name s).2 = .ok fs →
      getObjectFields cfg net f2 name ((getObjectFields cfg net f name s).1) =
        ((getObjectFields cfg net f name s).1, .ok fs)) ∧
    (s.is_authenticated = true → assocGet s.salesforce_object_fields_cache name2 = none →
      ((getObjectFields cfg net (f + 1) name2 s).1).trace =
        s.trace ++ [⟨"GET", mkUrl s.instance_scheme_and_authority cfg.api_version
          ("sobjects/" ++ name2 ++ "/describe"), none⟩]) ∧
    (s.salesforce_object_names_cache ≠ [] →
      ((doRequest cfg net f method path payload s).1).salesforce_object_names_cache =
        s.salesforce_object_names_cache) ∧
    (∀ k v, assocGet s.salesforce_object_fields_cache k = some v →
      assocGet ((doRequest cfg net f method path payload s).1).salesforce_object_fields_cache
        k = some v) := by
  refine ⟨?_, ?_, ?_, ?_, ?_, ?_⟩
  · intro hok hne
    have hc := getObjectNames_ok_cache cfg net f s ns hok
    have h2 := getObjectNames_cached cfg net f2 ((getObjectNames cfg net f s).1)
      (by rw [hc]; exact hne)
    rw [hc] at h2
    exact h2
  · exact getObjectNames_first_trace cfg net f s
  · intro hok
    exact getObjectFields_cached cfg net f2 name _ fs
      (getObjectFields_ok_cache cfg net f name s fs hok)
  · exact getObjectFields_first_trace cfg net f name2 s
  · exact (doRequest_preserves cfg net f method path payload s).2.1
  · exact (doRequest_preserves cfg net f method path payload s).2.2

/-- Witness for the amended claim C6 on the concrete fixtures. -/
theorem schema_cache_once_witness :
    getObjectNames testCfg testNet 1 ((getObjectNames testCfg testNet 1 authedState).1) =
      ((getObjectNames testCfg testNet 1 authedState).1, .ok ["Account", "Contact"]) ∧
    getObjectFields testCfg testNet 1 "Contact"
      ((getObjectFields testCfg testNet 1 "Contact" authedState).1) =
      ((getObjectFields testCfg testNet 1 "Contact" authedState).1,
        .ok ["FirstName", "LastName", "Email"]) := by
  have h := schema_cache_once testCfg testNet 1 1 "Contact" "Contact" authedState
    ["Account", "Contact"] ["FirstName", "LastName", "Email"] "GET" "sobjects" none
  exact ⟨h.1 rfl (by decide), h.2.2.1 rfl⟩

/-- Claim C7: the authentication guard is idempotent.  On an
unauthenticated state a dispatch authenticates (one auth exchange,
`auth_calls` steps by one); after a successful authentication a second
guard call is the identity — it issues nothing and leaves the session
(base URL, bearer token, flag) untouched — and every dispatch issued from
an authenticated state performs no auth exchange at all and preserves the
session. -/
theorem authentication_idempotent (cfg : OHConfig) (net : Oracle) (s : OHState)
    (h0 : s.is_authenticated = false)
    (hok : (authenticate cfg net s).2 = .ok ()) :
    ensureAuthenticated cfg net s = authenticate cfg net s ∧
    ((authenticate cfg net s).1).auth_calls = s.auth_calls + 1 ∧
    ensureAuthenticated cfg net ((authenticate cfg net s).1) =
      ((authenticate cfg net s).1, .ok ()) ∧
    (∀ fuel method path payload s', s'.is_authenticated = true →
      ((doRequest cfg net fuel method path payload s').1).auth_calls = s'.auth_calls ∧
      ((doRequest cfg net fuel method path payload s').1).is_authenticated = true ∧
      ((doRequest cfg net fuel method path payload s').1).instance_scheme_and_authority =
        s'.instance_scheme_and_authority ∧
      ((doRequest cfg net fuel method path payload s').1).access_token =
        s'.access_token) := by
  refine ⟨?_, (authenticate_effect cfg net s).2.2.2.2.2.1, ?_, ?_⟩
  · simp [ensureAuthenticated, h0]
  · simp [ensureAuthenticated, authenticate_ok_flag cfg net s hok]
  · intro fuel method path payload s' ha
    have hp := (doRequest_preserves cfg net fuel method path payload s').1 ha
    exact ⟨hp.2.1, hp.1, hp.2.2.1, hp.2.2.2⟩

/-- Witness for claim C7 on the concrete fixtures. -/
theorem authentication_idempotent_witness :
    ensureAuthenticated testCfg testNet ((authenticate testCfg testNet initState).1) =
      ((authenticate testCfg testNet initState).1, .ok ()) ∧
    ((authenticate testCfg testNet initState).1).auth_calls = 1 := by
  have h := authentication_idempotent testCfg testNet initState rfl rfl
  exact ⟨h.2.2.1, h.2.1⟩

/-- Claim C9: when the nested guard-off dispatch of a schema fetch raises,
the object-name fetch propagates the error with the guard still disabled
(no error path restores it); any dispatch issued on a guard-disabled state
runs the straight-line `doRequestNoValidate` — no object-name check and no
payload validation — and the guard becomes true again exactly when a later
request completes successfully. -/
theorem guard_not_restored_on_error (cfg : OHConfig) (net : Oracle) (f : Nat)
    (s : OHState) (method path : String)
    (payload : Option (List (String × String))) :
    (s.salesforce_object_names_cache = [] →
      ∀ e, (doRequestNoValidate cfg net "GET" "sobjects" none
          { s with validate_salesforce_object := false
                   guard_log := s.guard_log ++ [false] }).2 = .error e →
        getObjectNames cfg net (f + 1) s =
          ((doRequestNoValidate cfg net "GET" "sobjects" none
            { s with validate_salesforce_object := false
                     guard_log := s.guard_log ++ [false] }).1, .error e) ∧
        ((getObjectNames cfg net (f + 1) s).1).validate_salesforce_object = false) ∧
    (∀ s', s'.validate_salesforce_object = false →
      doRequest cfg net (f + 1) method path payload s' =
        doRequestNoValidate cfg net method path payload s') ∧
    (∀ s' v, (doRequest cfg net (f + 1) method path payload s').2 = .ok v →
      ((doRequest cfg net (f + 1) method path payload s').1).validate_salesforce_object =
        true) := by
  refine ⟨?_, ?_, ?_⟩
  · intro hmiss e herr
    have hv := doRequestNoValidate_error_validate cfg net "GET" "sobjects" none
      { s with validate_salesforce_object := false
               guard_log := s.guard_log ++ [false] } e herr
    have hEq : getObjectNames cfg net (f + 1) s =
        ((doRequestNoValidate cfg net "GET" "sobjects" none
          { s with validate_salesforce_object := false
                   guard_log := s.guard_log ++ [false] }).1, .error e) := by
      unfold getObjectNames
      rw [if_pos (by simp [hmiss])]
      dsimp only
      rw [doRequest_guard_off cfg net f "GET" "sobjects" none _ rfl]
      rcases hR : doRequestNoValidate cfg net "GET" "sobjects" none
        { s with validate_salesforce_object := false
                 guard_log := s.guard_log ++ [false] } with ⟨s1, r1⟩
      rw [hR] at herr
      simp only at herr
      rw [herr]
    refine ⟨hEq, ?_⟩
    rw [hEq]
    exact hv
  · intro s' hoff
    exact doRequest_guard_off cfg net f method path payload s' hoff
  · intro s' v hok
    exact doRequest_ok_validate cfg net (f + 1) method path payload s' v hok

/-- Witness for claim C9: a transport that fails everything leaves the
guard disabled after the nested sobjects fetch fails. -/
theorem guard_not_restored_on_error_witness :
    getObjectNames testCfg failNet 1 authedState =
      ((doRequestNoValidate testCfg failNet "GET" "sobjects" none
        { authedState with validate_salesforce_object := false
                           guard_log := authedState.guard_log ++ [false] }).1,
        .error (.requestError (mkUrl testInstanceUrl testCfg.api_version "sobjects"))) ∧
    ((getObjectNames testCfg failNet 1 authedState).1).validate_salesforce_object =
      false := by
  have h := guard_not_restored_on_error testCfg failNet 0 authedState "GET" "sobjects" none
  exact h.1 rfl (.requestError (mkUrl testInstanceUrl testCfg.api_version "sobjects")) rfl

/-- Claim C10 counterexample: with an auth body that carries `instance_url`
but lacks `access_token`, the call raises KeyError and the connector is
marked authenticated, but the base URL is not empty — it has already been
populated from `instance_url` — refuting "proceeds with an empty base
URL". -/
theorem auth_baseurl_counterexample :
    (authenticate testCfg noTokenNet initState).2 = .error (.keyError "access_token") ∧
    ((authenticate testCfg noTokenNet initState).1).is_authenticated = true ∧
    ((authenticate testCfg noTokenNet initState).1).instance_scheme_and_authority =
      "https://sf.example" ∧
    ("https://sf.example" : String) ≠ "" :=
  ⟨rfl, rfl, rfl, by decide⟩

/-- Claim C10 as amended: on an HTTP-success auth response the connector is
marked authenticated before the body is parsed, so a body lacking
`instance_url` or `access_token` makes the call raise KeyError while the
flag stays true and every subsequent dispatch performs no further auth
exchange; the bearer token is left unpopulated in both cases, and the base
URL is left unpopulated exactly when `instance_url` itself is missing —
when only `access_token` is missing the base URL has already been set from
`instance_url`. -/
theorem auth_flag_set_before_parse (cfg : OHConfig) (net : Oracle)
    (kvs : List (String × JVal)) (s : OHState)
    (hnet : net (authRequest cfg) = { ok := true, body := .jobj kvs }) :
    (dictGet kvs "instance_url" = none →
      (authenticate cfg net s).2 = .error (.keyError "instance_url") ∧
      ((authenticate cfg net s).1).is_authenticated = true ∧
      ((authenticate cfg net s).1).instance_scheme_and_authority =
        s.instance_scheme_and_authority ∧
      ((authenticate cfg net s).1).access_token = s.access_token) ∧
    (∀ v, dictGet kvs "instance_url" = some v → dictGet kvs "access_token" = none →
      (authenticate cfg net s).2 = .error (.keyError "access_token") ∧
      ((authenticate cfg net s).1).is_authenticated = true ∧
      ((authenticate cfg net s).1).instance_scheme_and_authority = v.asString ∧
      ((authenticate cfg net s).1).access_token = s.access_token) ∧
    (∀ fuel method path payload s', s'.is_authenticated = true →
      ((doRequest cfg net fuel method path payload s').1).auth_calls = s'.auth_calls) := by
  refine ⟨?_, ?_, ?_⟩
  · intro hmiss
    unfold authenticate
    simp [hnet, hmiss]
  · intro v hv hmiss
    unfold authenticate
    simp [hnet, hv, hmiss]
  · intro fuel method path payload s' ha
    exact ((doRequest_preserves cfg net fuel method path payload s').1 ha).2.1

/-- Witness for the amended claim C10 on the token-less auth endpoint. -/
theorem auth_flag_set_before_parse_witness :
    (authenticate testCfg noTokenNet initState).2 = .error (.keyError "access_token") ∧
    ((authenticate testCfg noTokenNet initState).1).is_authenticated = true ∧
    ((authenticate testCfg noTokenNet initState).1).access_token =
      initState.access_token := by
  have h := auth_flag_set_before_parse testCfg noTokenNet
    [("instance_url", .jstr "https://sf.example")] initState rfl
  have h2 := h.2.1 (.jstr "https://sf.example") rfl rfl
  exact ⟨h2.1, h2.2.1, h2.2.2.2⟩
